import Mathlib

/-
  Verification development for the Root-Agency repository.

  The repository is a Slack-facing business-reporting assistant.  The parts
  relevant to the claims are modelled here as executable Lean definitions:

  * `PyVal` is a shallow model of the Python values the tools pass around
    (None, bool, int, Decimal, float, str, list, tuple, dict).
  * Library calls (the LLM agent invocation, `json.loads`, `ast.literal_eval`,
    the three `re.search` patterns, the database, the Notion client, GCS)
    are explicit oracle parameters of the translated functions, so that each
    translated function mirrors the source's control flow exactly while a
    concrete witness can instantiate the oracles.
  * The fixed regular expressions `\s+LIMIT\s+\d+` (and V3's
    `\bLIMIT\s+\d+\s*` / `\bOFFSET\s+\d+\s*`) are implemented directly as
    character-level matchers, together with the single left-to-right
    non-overlapping substitution pass that Python's `re.sub` performs.
-/

namespace RootAgency

/-! ## A model of Python values -/

inductive PyVal where
  | vNone : PyVal
  | vBool : Bool → PyVal
  | vInt : Int → PyVal
  | vDec : Int → PyVal
  | vFloat : Int → PyVal
  | vStr : String → PyVal
  | vList : List PyVal → PyVal
  | vTuple : List PyVal → PyVal
  | vDict : List (PyVal × PyVal) → PyVal

open PyVal

mutual

/-- Structural (Python `==`-style) equality test on `PyVal`. -/
def pyBeq : PyVal → PyVal → Bool
  | vNone, vNone => true
  | vBool a, vBool b => a == b
  | vInt a, vInt b => a == b
  | vDec a, vDec b => a == b
  | vFloat a, vFloat b => a == b
  | vStr a, vStr b => a == b
  | vList a, vList b => pyBeqList a b
  | vTuple a, vTuple b => pyBeqList a b
  | vDict a, vDict b => pyBeqPairs a b
  | _, _ => false

def pyBeqList : List PyVal → List PyVal → Bool
  | [], [] => true
  | a :: as, b :: bs => pyBeq a b && pyBeqList as bs
  | _, _ => false

def pyBeqPairs : List (PyVal × PyVal) → List (PyVal × PyVal) → Bool
  | [], [] => true
  | (k, v) :: as, (k', v') :: bs => pyBeq k k' && pyBeq v v' && pyBeqPairs as bs
  | _, _ => false

end

/-- Python truthiness (`if x:`). -/
def pyTruthy : PyVal → Bool
  | vNone => false
  | vBool b => b
  | vInt n => n != 0
  | vDec n => n != 0
  | vFloat n => n != 0
  | vStr s => s != ""
  | vList xs => !xs.isEmpty
  | vTuple xs => !xs.isEmpty
  | vDict es => !es.isEmpty

/-- Key lookup in a dict entry list (Python `dict.get` for present keys). -/
def dgetK (es : List (PyVal × PyVal)) (k : PyVal) : Option PyVal :=
  (es.find? (fun p => pyBeq p.1 k)).map (·.2)

/-- `dict.get` with a string key. -/
def dgetS (es : List (PyVal × PyVal)) (k : String) : Option PyVal :=
  dgetK es (vStr k)

/-- `dict.get(key, default)` on an arbitrary value: only dicts support it. -/
def dictGet (v : PyVal) (k : String) : Option PyVal :=
  match v with
  | vDict es => dgetS es k
  | _ => none

/-- Whether a dict value has a given string key. -/
def hasKey (v : PyVal) (k : String) : Bool :=
  (dictGet v k).isSome

/-- `len(x)` for values that have a length. -/
def pyLen : PyVal → Option Nat
  | vStr s => some s.length
  | vList xs => some xs.length
  | vTuple xs => some xs.length
  | vDict es => some es.length
  | _ => none

end RootAgency

namespace RootAgency

/-! ## Character-level model of the fixed regular expressions

`SQLQueryTool.run` (both the `reporting_manager` variant and the top-level
`SQLQueryTOOL.py` variant) executes
`re.sub(r"\s+LIMIT\s+\d+", "", sql_query, flags=re.IGNORECASE).strip()`;
`SQLQueryToolV3._execute_traditional_query` executes
`re.sub(r'\bLIMIT\s+\d+\s*', '', q, flags=re.IGNORECASE)` followed by the
same for `OFFSET`.  For these fixed patterns the greedy character classes
are pairwise disjoint at every boundary, so Python's backtracking matcher is
equivalent to the deterministic maximal-munch matchers below, and `re.sub`
is the single left-to-right non-overlapping removal pass `subLimit`. -/

/-- Python `\s` (ASCII range). -/
def isWS (c : Char) : Bool :=
  c == ' ' || c == '\t' || c == '\n' || c == '\r' || c == '\x0b' || c == '\x0c'

/-- Case-insensitive character comparison (`re.IGNORECASE`). -/
def ciEq (a b : Char) : Bool := a.toLower == b.toLower

/-- The literal `LIMIT` of the patterns. -/
def limitChars : List Char := ['L', 'I', 'M', 'I', 'T']

/-- The literal `OFFSET` of the V3 pattern. -/
def offsetChars : List Char := ['O', 'F', 'F', 'S', 'E', 'T']

/-- Consume a case-insensitive literal from the front of the text. -/
def dropCI : List Char → List Char → Option (List Char)
  | [], cs => some cs
  | _ :: _, [] => none
  | p :: ps, c :: cs => if ciEq c p then dropCI ps cs else none

/-- `l` matches the literal `pat` case-insensitively, character by character. -/
def ciEqList : List Char → List Char → Bool
  | [], [] => true
  | a :: as, b :: bs => ciEq a b && ciEqList as bs
  | _, _ => false

/-- `pat` is a case-insensitive prefix of the text. -/
def ciPrefix : List Char → List Char → Bool
  | [], _ => true
  | _ :: _, [] => false
  | p :: ps, c :: cs => ciEq c p && ciPrefix ps cs

/-- The case-insensitive literal `pat` occurs somewhere in the text. -/
def hasCI (pat : List Char) : List Char → Bool
  | [] => ciPrefix pat []
  | c :: cs => ciPrefix pat (c :: cs) || hasCI pat cs

/-- Match `\s+LIMIT\s+\d+` (IGNORECASE) at the head of the text, returning
the text after the match. -/
def matchLimitAt (cs : List Char) : Option (List Char) :=
  let w := cs.takeWhile isWS
  let r1 := cs.dropWhile isWS
  if w.isEmpty then none else
  match dropCI limitChars r1 with
  | none => none
  | some r2 =>
    let w2 := r2.takeWhile isWS
    let r3 := r2.dropWhile isWS
    if w2.isEmpty then none else
    let d := r3.takeWhile Char.isDigit
    let r4 := r3.dropWhile Char.isDigit
    if d.isEmpty then none else some r4

theorem length_dropWhile_le (p : Char → Bool) (l : List Char) :
    (l.dropWhile p).length ≤ l.length := by
  induction l with
  | nil => simp [List.dropWhile]
  | cons c cs ih =>
    by_cases h : p c
    · simp only [List.dropWhile, h, List.length_cons]
      omega
    · simp [List.dropWhile, h]

theorem dropCI_length_le {pat l r : List Char} (h : dropCI pat l = some r) :
    r.length ≤ l.length := by
  induction pat generalizing l r with
  | nil =>
    simp only [dropCI, Option.some.injEq] at h
    subst h; exact le_refl _
  | cons p ps ih =>
    cases l with
    | nil => simp [dropCI] at h
    | cons c cs =>
      simp only [dropCI] at h
      split at h
      · exact le_trans (ih h) (by simp)
      · exact absurd h (by simp)

theorem matchLimitAt_length_lt {cs r : List Char} (h : matchLimitAt cs = some r) :
    r.length < cs.length := by
  simp only [matchLimitAt] at h
  split at h
  · exact absurd h (by simp)
  · rename_i hw
    split at h
    · exact absurd h (by simp)
    · rename_i r2 hdrop
      split at h
      · exact absurd h (by simp)
      · rename_i hw2
        split at h
        · exact absurd h (by simp)
        · rename_i hd
          rw [Option.some.injEq] at h
          subst h
          have h1 : ((r2.dropWhile isWS).dropWhile Char.isDigit).length ≤ r2.length :=
            le_trans (length_dropWhile_le _ _) (length_dropWhile_le _ _)
          have h2 : r2.length ≤ (cs.dropWhile isWS).length := dropCI_length_le hdrop
          have h3 : (cs.dropWhile isWS).length < cs.length := by
            have hne : ¬(cs.takeWhile isWS).isEmpty := hw
            have happ := cs.takeWhile_append_dropWhile (p := isWS)
            have hlen : (cs.takeWhile isWS).length + (cs.dropWhile isWS).length = cs.length := by
              have h' := congrArg List.length happ
              rw [List.length_append] at h'
              exact h'
            have hpos : 0 < (cs.takeWhile isWS).length := by
              cases htw : cs.takeWhile isWS with
              | nil => simp [htw] at hne
              | cons a as => simp [htw]
            omega
          omega

/-- Fuelled scan for the removal pass (each step of the scan consumes at
least one character, so `cs.length` fuel always suffices). -/
def subLimitF : Nat → List Char → List Char
  | 0, _ => []
  | _, [] => []
  | fuel + 1, c :: rest =>
    match matchLimitAt (c :: rest) with
    | some r => subLimitF fuel r
    | none => c :: subLimitF fuel rest

/-- The single left-to-right non-overlapping removal pass of
`re.sub(r"\s+LIMIT\s+\d+", "", _, flags=re.IGNORECASE)`. -/
def subLimit (cs : List Char) : List Char :=
  subLimitF cs.length cs

theorem subLimitF_congr :
    ∀ (f g : Nat) (cs : List Char), cs.length ≤ f → cs.length ≤ g →
      subLimitF f cs = subLimitF g cs := by
  intro f
  induction f with
  | zero =>
    intro g cs hf _
    have : cs = [] := List.length_eq_zero.mp (Nat.le_zero.mp hf)
    subst this
    cases g <;> rfl
  | succ f ih =>
    intro g cs hf hg
    cases cs with
    | nil => cases g <;> rfl
    | cons c rest =>
      cases g with
      | zero => simp at hg
      | succ g' =>
        simp only [subLimitF]
        cases hm : matchLimitAt (c :: rest) with
        | some r =>
          have hr := matchLimitAt_length_lt hm
          simp only [List.length_cons] at hf hg hr
          exact ih g' r (by omega) (by omega)
        | none =>
          simp only [List.length_cons] at hf hg
          rw [ih g' rest (by omega) (by omega)]

/-- Unfolding rule for `subLimit` on a non-empty text. -/
theorem subLimit_cons (c : Char) (rest : List Char) :
    subLimit (c :: rest) =
      match matchLimitAt (c :: rest) with
      | some r => subLimit r
      | none => c :: subLimit rest := by
  unfold subLimit
  simp only [List.length_cons, subLimitF]
  cases hm : matchLimitAt (c :: rest) with
  | some r =>
    have hr := matchLimitAt_length_lt hm
    simp only [List.length_cons] at hr
    exact subLimitF_congr rest.length r.length r (by omega) (by omega)
  | none => rw [subLimitF_congr rest.length rest.length rest (le_refl _) (le_refl _)]

theorem subLimit_nil : subLimit [] = [] := rfl

/-- Some position of the text starts a `\s+LIMIT\s+\d+` match. -/
def hasLimitMatch : List Char → Bool
  | [] => false
  | c :: cs => (matchLimitAt (c :: cs)).isSome || hasLimitMatch cs

/-- Python `str.strip()` (ASCII whitespace). -/
def stripChars (cs : List Char) : List Char :=
  ((cs.dropWhile isWS).reverse.dropWhile isWS).reverse

/-- `re.sub(r"\s+LIMIT\s+\d+", "", s, flags=re.IGNORECASE).strip()` as
performed on the extracted SQL query by `SQLQueryTool.run`. -/
def cleanSqlQuery (s : String) : String :=
  String.mk (stripChars (subLimit s.data))

end RootAgency

namespace RootAgency

/-- Python `\w` (ASCII range), for the `\b` boundary of the V3 patterns. -/
def isWordChar (c : Char) : Bool :=
  c.isAlphanum || c == '_'

theorem length_dropWhile_lt {p : Char → Bool} {l : List Char}
    (h : ¬(l.takeWhile p).isEmpty) : (l.dropWhile p).length < l.length := by
  have happ := l.takeWhile_append_dropWhile (p := p)
  have hlen : (l.takeWhile p).length + (l.dropWhile p).length = l.length := by
    have h' := congrArg List.length happ
    rw [List.length_append] at h'
    exact h'
  have hpos : 0 < (l.takeWhile p).length := by
    cases htw : l.takeWhile p with
    | nil => simp [htw] at h
    | cons a as => simp [htw]
  omega

/-- Match `\bKW\s+\d+\s*` (IGNORECASE) at the head of the text, where
`prevIsWord` says whether the character before the head is a word character
(`\b` fails then).  Returns the text after the match together with whether
the last consumed character is a word character (the `prevIsWord` for the
continued scan). -/
def matchKwAt (kw : List Char) (prevIsWord : Bool) (cs : List Char) :
    Option (List Char × Bool) :=
  if prevIsWord then none else
  match dropCI kw cs with
  | none => none
  | some r1 =>
    let w := r1.takeWhile isWS
    if w.isEmpty then none else
    let r2 := r1.dropWhile isWS
    let d := r2.takeWhile Char.isDigit
    if d.isEmpty then none else
    let r3 := r2.dropWhile Char.isDigit
    let w2 := r3.takeWhile isWS
    let r4 := r3.dropWhile isWS
    some (r4, w2.isEmpty)

theorem matchKwAt_length_lt {kw : List Char} {prevIsWord : Bool}
    {cs r : List Char} {b : Bool} (h : matchKwAt kw prevIsWord cs = some (r, b)) :
    r.length < cs.length := by
  simp only [matchKwAt] at h
  split at h
  · exact absurd h (by simp)
  · split at h
    · exact absurd h (by simp)
    · rename_i r1 hdrop
      split at h
      · exact absurd h (by simp)
      · rename_i hw
        split at h
        · exact absurd h (by simp)
        · rename_i hd
          rw [Option.some.injEq, Prod.mk.injEq] at h
          obtain ⟨h1, -⟩ := h
          subst h1
          have hA : (((r1.dropWhile isWS).dropWhile Char.isDigit).dropWhile isWS).length
              ≤ (r1.dropWhile isWS).length :=
            le_trans (length_dropWhile_le _ _) (length_dropWhile_le _ _)
          have hB : (r1.dropWhile isWS).length < r1.length := length_dropWhile_lt hw
          have hC : r1.length ≤ cs.length := dropCI_length_le hdrop
          omega

/-- Fuelled scan for the V3 removal pass. -/
def subKwF (kw : List Char) : Nat → Bool → List Char → List Char
  | 0, _, _ => []
  | _, _, [] => []
  | fuel + 1, prevIsWord, c :: rest =>
    match matchKwAt kw prevIsWord (c :: rest) with
    | some (r, pw) => subKwF kw fuel pw r
    | none => c :: subKwF kw fuel (isWordChar c) rest

/-- The single left-to-right non-overlapping removal pass of
`re.sub(r'\bKW\s+\d+\s*', '', _, flags=re.IGNORECASE)` performed by
`SQLQueryToolV3._execute_traditional_query`. -/
def subKw (kw : List Char) (prevIsWord : Bool) (cs : List Char) : List Char :=
  subKwF kw cs.length prevIsWord cs

theorem subKwF_congr (kw : List Char) :
    ∀ (f g : Nat) (pw : Bool) (cs : List Char), cs.length ≤ f → cs.length ≤ g →
      subKwF kw f pw cs = subKwF kw g pw cs := by
  intro f
  induction f with
  | zero =>
    intro g pw cs hf _
    have : cs = [] := List.length_eq_zero.mp (Nat.le_zero.mp hf)
    subst this
    cases g <;> rfl
  | succ f ih =>
    intro g pw cs hf hg
    cases cs with
    | nil => cases g <;> rfl
    | cons c rest =>
      cases g with
      | zero => simp at hg
      | succ g' =>
        simp only [subKwF]
        cases hm : matchKwAt kw pw (c :: rest) with
        | some rp =>
          have hr := matchKwAt_length_lt (r := rp.1) (b := rp.2) (by rw [hm])
          simp only [List.length_cons] at hf hg hr
          exact ih g' rp.2 rp.1 (by omega) (by omega)
        | none =>
          simp only [List.length_cons] at hf hg
          rw [ih g' (isWordChar c) rest (by omega) (by omega)]

/-- The LIMIT/OFFSET cleaning of `SQLQueryToolV3._execute_traditional_query`:
`re.sub(r'\bLIMIT\s+\d+\s*', '', q, IGNORECASE)` then the same for OFFSET. -/
def cleanQueryV3 (s : String) : String :=
  String.mk (subKw offsetChars false (subKw limitChars false s.data))

end RootAgency

namespace RootAgency

open PyVal

/-! ## pandas DataFrame model (as used by the SQLQueryTool variants)

`retail_agency/reporting_manager/tools/SQLQueryTool.py` builds its DataFrame
from a list of row dicts (`pd.DataFrame(data)`): the index length is the
number of records and the columns are the record keys in order of first
appearance. -/

structure DataFrame where
  cols : List PyVal
  recs : List (List (PyVal × PyVal))

/-- First-occurrence deduplication of record keys (pandas column inference
for `pd.DataFrame(list_of_dicts)`). -/
def dedupKeysAux (seen : List PyVal) : List PyVal → List PyVal
  | [] => []
  | k :: ks =>
    if seen.any (fun s => pyBeq s k) then dedupKeysAux seen ks
    else k :: dedupKeysAux (k :: seen) ks

def dedupKeys (ks : List PyVal) : List PyVal := dedupKeysAux [] ks

/-- `pd.DataFrame(records)` for a list of row dicts. -/
def dfFromRecords (recs : List (List (PyVal × PyVal))) : DataFrame :=
  ⟨dedupKeys ((recs.map (fun r => r.map Prod.fst)).join), recs⟩

/-- `df.empty` (no rows or no columns). -/
def dfEmpty (df : DataFrame) : Bool :=
  df.recs.isEmpty || df.cols.isEmpty

/-- `len(df)`. -/
def dfLen (df : DataFrame) : Nat := df.recs.length

/-- `df.to_dict(orient='records')`. -/
def dfRecordsVal (df : DataFrame) : PyVal :=
  vList (df.recs.map (fun r => vDict r))

/-- `df.columns.tolist()`. -/
def dfColsVal (df : DataFrame) : PyVal := vList df.cols

/-! ## SQLQueryTool (reporting_manager variant) -/

/-- `SQLQueryTool._parse_tuple_string`: `ast.literal_eval` with every failure
caught and turned into `[]`. -/
def parseTupleString (litEval : String → Option PyVal) (s : String) : PyVal :=
  (litEval s).getD (vList [])

/-- `SQLQueryTool._convert_to_dataframe`'s `convert_value`: Decimals become
floats and empty strings become None. -/
def convert_value : PyVal → PyVal
  | vDec n => vFloat n
  | vStr "" => vNone
  | v => v

/-- The generated fallback column names `column_0, …, column_{n-1}`. -/
def genColumns (n : Nat) : List PyVal :=
  (List.range n).map (fun i => vStr ("column_" ++ toString i))

/-- `list(x)` for the iterable values the tool meets; other values raise
`TypeError` (propagated to the enclosing handler). -/
def pyToList : PyVal → Except String (List PyVal)
  | vList xs => .ok xs
  | vTuple xs => .ok xs
  | vStr s => .ok (s.data.map (fun c => vStr (String.mk [c])))
  | vDict es => .ok (es.map (fun p => p.1))
  | _ => .error "TypeError: object is not iterable"

/-- `{col: convert_value(val) for col, val in zip(columns, row)}`. -/
def zipRecord (cols : List PyVal) (xs : List PyVal) : List (PyVal × PyVal) :=
  List.zipWith (fun c v => (c, convert_value v)) cols xs

/-- The body of `SQLQueryTool._convert_to_dataframe` for truthy input
(everything inside its `try`). -/
def convertBody (query : String) (results provided : PyVal) :
    Except String DataFrame :=
  match results with
  | vList rs => do
    let cols ←
      if pyTruthy provided then pyToList provided
      else
        match rs.head? with
        | some (vTuple xs) => pure (genColumns xs.length)
        | some (vList xs) => pure (genColumns xs.length)
        | _ => pure (genColumns 1)
    let recs ← rs.mapM (fun row =>
      match row with
      | vTuple xs => Except.ok (zipRecord cols xs)
      | vList xs => Except.ok (zipRecord cols xs)
      | x =>
        match cols.head? with
        | some c => Except.ok [(c, convert_value x)]
        | none => Except.error "IndexError: list index out of range")
    pure (dfFromRecords recs)
  | _ =>
    -- single (non-list) truthy value result
    if pyTruthy provided then do
      let cs ← pyToList provided
      match cs.head? with
      | some c => pure (dfFromRecords [[(c, convert_value results)]])
      | none => Except.error "IndexError: list index out of range"
    else pure (dfFromRecords [[(vStr "value", convert_value results)]])

/-- `SQLQueryTool._convert_to_dataframe` (`query` is the tool's natural
language query, unused by this variant's conversion).  An exception in the
body falls back to `pd.DataFrame(columns=provided if provided else None)`;
an exception while building the fallback itself escapes to `run`'s handler. -/
def convert_to_dataframe (query : String) (results provided : PyVal) :
    Except String DataFrame :=
  if pyTruthy results = false then .ok ⟨[], []⟩
  else
    match convertBody query results provided with
    | .ok df => .ok df
    | .error _ =>
      if pyTruthy provided then (pyToList provided).map (fun cs => ⟨cs, []⟩)
      else .ok ⟨[], []⟩

/-- `SQLQueryTool._save_results`.  The CSV write succeeds; the JSON branch
is `json.dump(json_data, indent=2, ensure_ascii=False)` — the file object
`f` is missing from the call, so it raises `TypeError`, the handler logs,
and the returned dict never acquires a `'json'` key. -/
def jsonDumpMissingFp : Except String Unit :=
  .error "dump() missing 1 required positional argument: 'fp'"

def save_results (df : DataFrame) (basePath : String) : List (String × String) :=
  if dfEmpty df then []
  else
    let paths := [("csv", basePath ++ ".csv")]
    match jsonDumpMissingFp with
    | .ok _ => paths ++ [("json", basePath ++ ".json")]
    | .error _ => paths

end RootAgency

namespace RootAgency

open PyVal

/-! ## SQLQueryTool.run (reporting_manager variant)

Library calls are oracle parameters: `loads` is `json.loads` (`none` is
`json.JSONDecodeError`), `litEval` is `ast.literal_eval`, `searchSql`,
`searchResults` and `searchColumns` are the `re.search` calls for
`"sql_query":\s*"([^"]+)"`, `"sql_result":\s*(\[.*?\])` and
`"columns":\s*(\[.*?\])` returning the captured group, `agentResponse` is
`self._agent_executor.invoke(...)` and `dbRun` is `self._db.run(...)`
(`Except.error` is a raised exception). -/

structure SqlOracles where
  agentInitialized : Bool
  agentResponse : Except String PyVal
  loads : String → Option PyVal
  litEval : String → Option PyVal
  searchSql : String → Option String
  searchResults : String → Option String
  searchColumns : String → Option String
  dbRun : String → Except String PyVal
  savePath : String
  timestamp : String

/-- The extracted fields together with which fallback paths were taken. -/
structure SqlExtract where
  sql_query : PyVal
  raw_results : PyVal
  columns : PyVal
  usedRegex : Bool
  usedLitEval : Bool

/-- Lines 248–285 of `SQLQueryTool.run`: parse the agent response, with the
regex fallback on `json.JSONDecodeError`.  `Except.error` is an exception
reaching `run`'s handler (`json.loads` of a non-string raises `TypeError`;
`.get` on a non-dict raises `AttributeError`; a response that is not a dict
with an `'output'` key raises `ValueError`). -/
def runExtractStep (o : SqlOracles) : Except String SqlExtract :=
  match o.agentResponse with
  | .error e => .error e
  | .ok resp =>
    match resp with
    | vDict es =>
      match dgetS es "output" with
      | none => .error "Invalid response format from agent"
      | some outv =>
        match outv with
        | vStr s =>
          match o.loads s with
          | some parsed =>
            match parsed with
            | vDict pes =>
              .ok ⟨(dgetS pes "sql_query").getD (vStr ""),
                   (dgetS pes "sql_result").getD (vList []),
                   (dgetS pes "columns").getD (vList []),
                   false, false⟩
            | _ => .error "AttributeError: object has no attribute get"
          | none =>
            let sq : PyVal := match o.searchSql s with
              | some g => vStr g
              | none => vStr ""
            let rrLE : PyVal × Bool := match o.searchResults s with
              | some g =>
                match o.loads g with
                | some v => (v, false)
                | none => (parseTupleString o.litEval g, true)
              | none => (vList [], false)
            let cols : PyVal := match o.searchColumns s with
              | some g => (o.loads g).getD (vList [])
              | none => vList []
            .ok ⟨sq, rrLE.1, cols, true, rrLE.2⟩
        | _ => .error "TypeError: the JSON object must be str"
    | _ => .error "Invalid response format from agent"

/-- Everything `run` produced besides its return value, for stating
properties of the pipeline. -/
structure SqlRunOut where
  result : PyVal
  extract : SqlExtract
  cleanedSql : String
  df : DataFrame
  savedPaths : List (String × String)

/-- The dict `run` returns on success (lines 310–321). -/
def runResultDict (query : String) (cleaned : String) (df : DataFrame)
    (filePaths : List (String × String)) : PyVal :=
  vDict
    [ (vStr "type", vStr "tabular"),
      (vStr "data", vDict
        [ (vStr "columns", if dfEmpty df then vList [] else dfColsVal df),
          (vStr "rows", if dfEmpty df then vList [] else dfRecordsVal df) ]),
      (vStr "row_count", vInt (dfLen df : Nat)),
      (vStr "csv_path", vStr (((filePaths.find? (fun p => p.1 == "csv")).map Prod.snd).getD "")),
      (vStr "json_path", vStr (((filePaths.find? (fun p => p.1 == "json")).map Prod.snd).getD "")),
      (vStr "query", vStr query),
      (vStr "sql_query", vStr cleaned) ]

/-- The `try` body of `SQLQueryTool.run` (lines 239–321). -/
def runBody (o : SqlOracles) (query : String) : Except String SqlRunOut :=
  if !o.agentInitialized then
    .error "SQL agent not properly initialized"
  else
    match runExtractStep o with
    | .error e => .error e
    | .ok ex =>
      if pyTruthy ex.sql_query = false then
        .error "Failed to extract SQL query from response"
      else
        match ex.sql_query with
        | vStr qs =>
          let cleaned := cleanSqlQuery qs
          match o.dbRun cleaned with
          | .error e => .error e
          | .ok dbResults =>
            match convert_to_dataframe query dbResults ex.columns with
            | .error e => .error e
            | .ok df =>
              let basePath := o.savePath ++ "/query_results_" ++ o.timestamp
              let filePaths := save_results df basePath
              .ok ⟨runResultDict query cleaned df filePaths, ex, cleaned, df, filePaths⟩
        | _ => .error "TypeError: expected string or bytes-like object"

/-- `SQLQueryTool.run`: the `try` body with the `except Exception` handler
(lines 323–326; the later duplicate handlers are dead code). -/
def runSQLTool (o : SqlOracles) (query : String) : PyVal :=
  match runBody o query with
  | .ok out => out.result
  | .error e =>
    vDict [ (vStr "type", vStr "error"),
            (vStr "error", vStr ("Error executing SQL query: " ++ e)) ]

end RootAgency

namespace RootAgency

open PyVal

/-! ## QueryGenerator.generate_query -/

/-- The fixed "error format" dict that `QueryGenerator.generate_query`
returns on every failure path. -/
def queryGenErrorFormat (question : String) : PyVal :=
  vDict [ (vStr "question", vStr question),
          (vStr "sql_query", vNone),
          (vStr "limit_requested", vBool false),
          (vStr "columns", vList []),
          (vStr "sql_result", vList []) ]

/-- `QueryGenerator.generate_query`.  `agentResult` is
`self.agent.invoke({"input": question})` (`Except.error` a raised
exception), `loads` is `json.loads`.  All exceptions are caught; every
failure path returns `queryGenErrorFormat`. -/
def generate_query (agentResult : Except String PyVal)
    (loads : String → Option PyVal) (question : String) : PyVal :=
  match agentResult with
  | .error _ => queryGenErrorFormat question
  | .ok r =>
    match r with
    | vDict es =>
      match dgetS es "output" with
      | some (vStr s) =>
        match loads s with
        | some response => response
        | none => queryGenErrorFormat question
      | some _ => queryGenErrorFormat question
      | none => queryGenErrorFormat question
    | _ => queryGenErrorFormat question

/-! ## SQLQueryToolV3.run

The V3 DataFrame is built positionally: `pd.DataFrame(sql_result,
columns=columns)`. -/

structure DFrame where
  cols : List PyVal
  rows : List PyVal

def dfrLen (df : DFrame) : Nat := df.rows.length

/-- The width `pd.DataFrame(rows, columns=…)` infers for its row data:
ragged list/tuple rows are NaN-padded to the longest row, all-scalar rows
give one column, and mixed row kinds fail the constructor. -/
def pdRowsWidth (rs : List PyVal) : Option Nat :=
  if rs.all (fun r => match r with
      | vList _ => true
      | vTuple _ => true
      | _ => false) then
    some (rs.foldl (fun w r => max w (match r with
      | vList xs => xs.length
      | vTuple xs => xs.length
      | _ => 0)) 0)
  else if rs.all (fun r => match r with
      | vList _ => false
      | vTuple _ => false
      | vDict _ => false
      | _ => true) then
    some 1
  else none

/-- `SQLQueryToolV3._convert_to_dataframe`: an empty DataFrame on falsy
`sql_result`/`columns`, otherwise `pd.DataFrame(sql_result,
columns=columns)` — which raises `ValueError` when the row width of the
data does not equal the number of columns passed (list-of-dict rows align
by key instead).  An exception (`Except.error`) propagates to `run`'s
handler. -/
def convertToDataframeV3 (queryResult : PyVal) : Except String DFrame :=
  let res := (dictGet queryResult "sql_result").getD vNone
  let cols := (dictGet queryResult "columns").getD vNone
  if pyTruthy res = false || pyTruthy cols = false then .ok ⟨[], []⟩
  else
    match res, cols with
    | vList rs, vList cs =>
      if rs.all (fun r => match r with | vDict _ => true | _ => false) then
        .ok ⟨cs, rs⟩
      else
        match pdRowsWidth rs with
        | some w =>
          if w == cs.length then .ok ⟨cs, rs⟩
          else .error ("ValueError: " ++ toString cs.length ++
            " columns passed, passed data had " ++ toString w ++ " columns")
        | none => .error "ValueError: mixed row kinds in DataFrame data"
    | _, _ => .error "ValueError: DataFrame constructor not properly called"

/-- `SQLQueryToolV3._execute_traditional_query`: strips LIMIT/OFFSET
clauses and executes the query directly (`dbExec` is the SQLAlchemy
connection; `Except.error` a raised exception, re-raised to `run`). -/
def executeTraditionalQuery (dbExec : String → Except String DFrame)
    (baseQuery : String) : Except String DFrame :=
  dbExec (cleanQueryV3 baseQuery)

/-- The V3 GCS URIs (`_save_to_gcs`). -/
def gcsHeaderUri (timestamp : String) : String :=
  "gs://agent-memory/query-generator/header/query_header_" ++ timestamp ++ ".json"

def gcsResponseUri (timestamp : String) : String :=
  "gs://agent-memory/query-generator/response/query_response_" ++ timestamp ++ ".csv"

/-- What `SQLQueryToolV3.run` did, for stating properties. -/
structure V3Out where
  response : PyVal
  usedTraditional : Bool
  executedQuery : Option String
  df : DFrame

/-- The error return of `SQLQueryToolV3.run` (`json.dumps({"error": e})`). -/
def v3ErrOut (e : String) : V3Out :=
  ⟨vDict [(vStr "error", vStr e)], false, none, ⟨[], []⟩⟩

/-- The success response dict of `SQLQueryToolV3.run`. -/
def v3Response (question sqlQuery timestamp : String) (df : DFrame) : PyVal :=
  vDict [ (vStr "question", vStr question),
          (vStr "sql_query", vStr sqlQuery),
          (vStr "gcs_uris", vDict
            [ (vStr "header_uri", vStr (gcsHeaderUri timestamp)),
              (vStr "response_uri", vStr (gcsResponseUri timestamp)) ]),
          (vStr "metadata", vDict
            [ (vStr "has_stock_data", vBool (df.cols.any (fun c => pyBeq c (vStr "stock_count")))),
              (vStr "total_records", vInt (dfrLen df : Nat)),
              (vStr "columns", vList df.cols) ]) ]

/-- `if not query_result or not query_result.get('sql_query')`. -/
def v3GenFailed (queryResult : PyVal) : Bool :=
  !pyTruthy queryResult || !pyTruthy ((dictGet queryResult "sql_query").getD vNone)

/-- `result_length > 0 and result_length < self.top_k`: the initial rows
are used directly. -/
def v3UsesDirect (resultLength topK : Nat) : Bool :=
  decide (0 < resultLength) && decide (resultLength < topK)

/-- `SQLQueryToolV3.run`.  `queryResult` is the dict produced by
`QueryGenerator.generate_query`; `dbExec` is the direct SQLAlchemy
execution; `topK` is the tool's `top_k` field (default 10).  The returned
`response` models the dict passed to `json.dumps`.  The GCS writes of
`_save_to_gcs` are modelled as succeeding; an exception there would reach
the same outer handler as any other exception and produce the error
response. -/
def runV3 (queryResult : PyVal) (dbExec : String → Except String DFrame)
    (topK : Nat) (question timestamp : String) : V3Out :=
  if v3GenFailed queryResult then
    v3ErrOut "Failed to generate SQL query"
  else
    match (dictGet queryResult "sql_query").getD vNone with
    | vStr sqlQuery =>
      let sqlResult := (dictGet queryResult "sql_result").getD (vList [])
      match pyLen sqlResult with
      | none => v3ErrOut "Error executing query: TypeError: object has no len()"
      | some resultLength =>
        if v3UsesDirect resultLength topK then
          match convertToDataframeV3 queryResult with
          | .error e => v3ErrOut ("Error executing query: " ++ e)
          | .ok df => ⟨v3Response question sqlQuery timestamp df, false, none, df⟩
        else
          match executeTraditionalQuery dbExec sqlQuery with
          | .error e => v3ErrOut ("Error executing query: " ++ e)
          | .ok df =>
            ⟨v3Response question sqlQuery timestamp df, true,
             some (cleanQueryV3 sqlQuery), df⟩
    | _ => v3ErrOut "Error executing query: TypeError: expected string"

end RootAgency

namespace RootAgency

open PyVal

/-! ## NotionPoster.run (ceo/tools/NotionPoster.py) -/

/-- Oracles for `NotionPoster.run`: the two environment variables
(`os.getenv` returns `none` for an unset variable), the
`notion.databases.retrieve` call and the `notion.pages.create` call
(`Except.error` a raised exception). -/
structure NotionOracles where
  notion_token : Option String
  notion_database_id : Option String
  dbRetrieve : Except String PyVal
  pageCreate : Except String PyVal

/-- Truthiness of an `os.getenv` result (`if not notion_token`). -/
def envTruthy : Option String → Bool
  | none => false
  | some s => s != ""

/-- `NotionPoster.run`.  The page payload built from `title`/`content`/
`tags` is folded into the `pageCreate` oracle; the database-title rendering
of the log line and of the final `Database:` line is elided — every
exception it can raise lands in the handlers modelled here (the inner
`except` for the connection test, the outer `except` for the final
return). -/
def notionPosterRun (o : NotionOracles) : String :=
  if envTruthy o.notion_token = false then
    "Error: Notion token not found in environment variables."
  else if envTruthy o.notion_database_id = false then
    "Error: Notion database ID not found in environment variables."
  else
    match o.dbRetrieve with
    | .error e => "Error connecting to database: " ++ e
    | .ok db =>
      match o.pageCreate with
      | .error e => "Error creating Notion page: " ++ e
      | .ok newPage =>
        match dictGet newPage "id" with
        | none => "Error creating Notion page: 'id'"
        | some pv =>
          match pv with
          | vStr pageId =>
            let workspaceId : Option PyVal :=
              match dictGet db "workspace_id" with
              | some w => if pyTruthy w then some w else
                  (dictGet ((dictGet db "parent").getD (vDict [])) "workspace_id")
              | none => dictGet ((dictGet db "parent").getD (vDict [])) "workspace_id"
            let pid := (pageId.replace "-" "")
            let directUrl := "https://notion.so/" ++ pid
            let sharingUrl :=
              match workspaceId with
              | some (vStr w) => if w != "" then "https://notion.so/" ++ w ++ "/" ++ pid else directUrl
              | _ => directUrl
            "Successfully created Notion page!\nDirect URL: " ++ directUrl ++
              "\nSharing URL: " ++ sharingUrl
          | _ => "Error creating Notion page: AttributeError: replace"

/-! ## Firestore thread storage (retail_agency/utils/firebase_db.py) -/

/-- One Firestore access performed by the storage layer. -/
inductive FsAccess where
  | read (coll doc : String)
  | write (coll doc : String)

/-- The collection/document an access touches. -/
def FsAccess.coll : FsAccess → String
  | .read c _ => c
  | .write c _ => c

def FsAccess.doc : FsAccess → String
  | .read _ d => d
  | .write _ d => d

/-- The Firestore contents: collection name and document id to document. -/
def FsStore := String → String → Option PyVal

/-- The conversation id every operation keys on. -/
def conversationId (channel_id thread_ts : String) : String :=
  channel_id ++ ":" ++ thread_ts

/-- `get_threads_from_db`: one read of `slack-chats/<conversation_id>`;
a missing document or a missing `'threads'` field yields `{}` (the
`KeyError` is caught). -/
def get_threads_from_db (store : FsStore) (conversation_id : String) :
    PyVal × List FsAccess :=
  let ops := [FsAccess.read "slack-chats" conversation_id]
  match store "slack-chats" conversation_id with
  | some doc =>
    match dictGet doc "threads" with
    | some t => (t, ops)
    | none => (vDict [], ops)
  | none => (vDict [], ops)

/-- `save_threads_to_db`: one merge-write of `slack-chats/<conversation_id>`
with `{'threads': threads, 'updated_at': now}`. -/
def save_threads_to_db (conversation_id : String) (threads : PyVal)
    (now : String) : PyVal × List FsAccess :=
  (vDict [(vStr "threads", threads), (vStr "updated_at", vStr now)],
   [FsAccess.write "slack-chats" conversation_id])

/-- `dict[key] = value` on a dict entry list: replace an existing key or
append (Python preserves insertion order). -/
def dictSetD (es : List (PyVal × PyVal)) (k : String) (x : PyVal) :
    List (PyVal × PyVal) :=
  if (dgetS es k).isSome then
    es.map (fun p => if pyBeq p.1 (vStr k) then (p.1, x) else p)
  else es ++ [(vStr k, x)]

/-- `SlackThreadStorage.save_thread`.  `item assignment` on a non-dict
`threads` value raises `TypeError`, which the handler logs and re-raises. -/
def save_thread (store : FsStore) (channel_id thread_ts user_id
    initial_message : String) (metadata : Option PyVal) (now : String) :
    Except String String × List FsAccess :=
  let cid := conversationId channel_id thread_ts
  let thread_data := vDict
    [ (vStr "channel_id", vStr channel_id),
      (vStr "thread_ts", vStr thread_ts),
      (vStr "user_id", vStr user_id),
      (vStr "initial_message", vStr initial_message),
      (vStr "created_at", vStr now),
      (vStr "updated_at", vStr now),
      (vStr "is_active", vBool true),
      (vStr "message_count", vInt 1),
      (vStr "metadata", metadata.getD (vDict [])) ]
  let (existing, ops1) := get_threads_from_db store cid
  match existing with
  | vDict ees =>
    let updated := vDict (dictSetD ees thread_ts thread_data)
    let (_, ops2) := save_threads_to_db cid updated now
    (.ok thread_ts, ops1 ++ ops2)
  | _ => (.error "TypeError: object does not support item assignment", ops1)

/-- `SlackThreadStorage.update_thread` (raises `ValueError` when
`channel_id` is missing or the thread is not recorded; exceptions are
logged and re-raised). -/
def update_thread (store : FsStore) (thread_ts : String)
    (updates : List (String × PyVal)) (channel_id : Option String)
    (now : String) : Except String Unit × List FsAccess :=
  match channel_id with
  | none => (.error "channel_id is required for update_thread", [])
  | some ch =>
    let cid := conversationId ch thread_ts
    let (existing, ops1) := get_threads_from_db store cid
    match existing with
    | vDict ees =>
      match dgetS ees thread_ts with
      | none => (.error ("Thread " ++ thread_ts ++ " not found"), ops1)
      | some entry =>
        match entry with
        | vDict entryEs =>
          let merged := updates.foldl (fun acc kv => dictSetD acc kv.1 kv.2) entryEs
          let entry' := vDict (dictSetD merged "updated_at" (vStr now))
          let updated := vDict (dictSetD ees thread_ts entry')
          let (_, ops2) := save_threads_to_db cid updated now
          (.ok (), ops1 ++ ops2)
        | _ => (.error "AttributeError: object has no attribute update", ops1)
    | _ => (.error "TypeError: argument of type is not iterable", ops1)

/-- `SlackThreadStorage.get_thread`: `threads.get(thread_ts)`. -/
def get_thread (store : FsStore) (thread_ts channel_id : String) :
    Option PyVal × List FsAccess :=
  let cid := conversationId channel_id thread_ts
  let (threads, ops) := get_threads_from_db store cid
  (dictGet threads thread_ts, ops)

/-- `SlackThreadStorage.add_message_to_thread`. -/
def add_message_to_thread (store : FsStore) (thread_ts message user_id
    message_ts channel_id : String) (now : String) :
    Except String Unit × List FsAccess :=
  let cid := conversationId channel_id thread_ts
  let (threads, ops1) := get_threads_from_db store cid
  match threads with
  | vDict tes =>
    match dgetS tes thread_ts with
    | none => (.error ("Thread " ++ thread_ts ++ " not found"), ops1)
    | some entry =>
      match entry with
      | vDict entryEs =>
        let entryEs1 :=
          if (dgetS entryEs "messages").isSome then entryEs
          else dictSetD entryEs "messages" (vDict [])
        match (dgetS entryEs1 "messages").getD (vDict []) with
        | vDict msgs =>
          let msgVal := vDict
            [ (vStr "content", vStr message),
              (vStr "user_id", vStr user_id),
              (vStr "timestamp", vStr message_ts),
              (vStr "created_at", vStr now) ]
          let msgs' := dictSetD msgs message_ts msgVal
          let e1 := dictSetD entryEs1 "messages" (vDict msgs')
          let e2 := dictSetD e1 "updated_at" (vStr now)
          let e3 := dictSetD e2 "message_count" (vInt (msgs'.length : Nat))
          let updated := vDict (dictSetD tes thread_ts (vDict e3))
          let (_, ops2) := save_threads_to_db cid updated now
          (.ok (), ops1 ++ ops2)
        | _ => (.error "TypeError: object does not support item assignment", ops1)
      | _ => (.error "TypeError: argument of type is not iterable", ops1)
  | _ => (.error "TypeError: argument of type is not iterable", ops1)

/-- Insertion sort by the string `'timestamp'` field
(`messages.sort(key=lambda x: x['timestamp'])`). -/
def msgLe (a b : PyVal) : Bool :=
  match dictGet a "timestamp", dictGet b "timestamp" with
  | some (vStr x), some (vStr y) => decide (x ≤ y)
  | _, _ => true

def insertSorted (x : PyVal) : List PyVal → List PyVal
  | [] => [x]
  | y :: ys => if msgLe x y then x :: y :: ys else y :: insertSorted x ys

def sortMsgs : List PyVal → List PyVal
  | [] => []
  | x :: xs => insertSorted x (sortMsgs xs)

/-- `SlackThreadStorage.get_thread_messages`. -/
def get_thread_messages (store : FsStore) (thread_ts channel_id : String)
    (limit : Nat) : Except String (List PyVal) × List FsAccess :=
  let cid := conversationId channel_id thread_ts
  let (threads, ops) := get_threads_from_db store cid
  match threads with
  | vDict tes =>
    match dgetS tes thread_ts with
    | none => (.ok [], ops)
    | some entry =>
      match entry with
      | vDict entryEs =>
        match dgetS entryEs "messages" with
        | none => (.ok [], ops)
        | some msgsVal =>
          match msgsVal with
          | vDict msgs => (.ok ((sortMsgs (msgs.map Prod.snd)).take limit), ops)
          | _ => (.error "AttributeError: object has no attribute values", ops)
      | _ => (.error "TypeError: argument of type is not iterable", ops)
  | _ => (.error "TypeError: argument of type is not iterable", ops)

/-- `SlackThreadStorage.close_thread`: delegates to `update_thread` with
`{'is_active': False}`. -/
def close_thread (store : FsStore) (thread_ts channel_id : String)
    (now : String) : Except String Unit × List FsAccess :=
  update_thread store thread_ts [("is_active", vBool false)] (some channel_id) now

end RootAgency

namespace RootAgency

open PyVal

/-! ## app.py: the in-process `active_threads` cache -/

/-- The per-conversation entry of `active_threads`. -/
structure ThreadInfo where
  thread_id : String
  messages : List PyVal

/-- The `active_threads` dict (insertion-ordered, like a Python dict). -/
def ActiveThreads := List (String × ThreadInfo)

def atLookup (a : List (String × ThreadInfo)) (cid : String) : Option ThreadInfo :=
  (a.find? (fun p => p.1 == cid)).map (·.2)

/-- `get_or_create_thread`: `newThreadId` is the id of the thread that
`assistant_client.beta.threads.create()` would return if called.  Returns
`active_threads[conversation_id]` and the updated cache. -/
def get_or_create_thread (newThreadId : String) (conversation_id : String)
    (active : List (String × ThreadInfo)) :
    ThreadInfo × List (String × ThreadInfo) :=
  match atLookup active conversation_id with
  | some t => (t, active)
  | none =>
    let t : ThreadInfo := ⟨newThreadId, []⟩
    (t, active ++ [(conversation_id, t)])

/-! ## DataAnalyzer.run -/

/-- The `pd.DataFrame(...)` conversion at the top of `DataAnalyzer.run`
(`pdDF` is the pandas constructor; `Except.error` a raised exception,
caught by `run`'s handler). -/
def dataAnalyzerMkDF (pdDF : PyVal → Except String PyVal) (data : PyVal) :
    Except String PyVal :=
  match data with
  | vDict es =>
    match dgetS es "values" with
    | some v => pdDF v
    | none => pdDF data
  | _ => .ok data

/-- `DataAnalyzer.run`: dispatch on `analysis_type`.  The five analysis
routines (each of which catches its own exceptions and returns a dict) are
oracle parameters; an unsupported type raises `ValueError`, caught by the
handler, which returns `{"error": str(e)}`. -/
def dataAnalyzerRun (pdDF : PyVal → Except String PyVal)
    (trendR forecastR segmentR anomalyR corrR : PyVal → PyVal)
    (analysis_type : String) (data : PyVal) : PyVal :=
  match dataAnalyzerMkDF pdDF data with
  | .error e => vDict [(vStr "error", vStr e)]
  | .ok df =>
    if analysis_type == "trend" then trendR df
    else if analysis_type == "forecast" then forecastR df
    else if analysis_type == "segment" then segmentR df
    else if analysis_type == "anomaly" then anomalyR df
    else if analysis_type == "correlation" then corrR df
    else vDict [(vStr "error", vStr ("Unsupported analysis type: " ++ analysis_type))]

end RootAgency

namespace RootAgency

open PyVal

/-! ## QueryResultManager -/

mutual

/-- The composite `json.load ∘ json.dump`: what is read back from a file a
value was serialised to.  Tuples serialise as JSON arrays and are read back
as lists; values with no JSON encoding (`None` here stands for a raised
`TypeError`). -/
def jsonValue : PyVal → Option PyVal
  | vNone => some vNone
  | vBool b => some (vBool b)
  | vInt n => some (vInt n)
  | vFloat n => some (vFloat n)
  | vDec _ => none
  | vStr s => some (vStr s)
  | vList xs => (jsonValueList xs).map vList
  | vTuple xs => (jsonValueList xs).map vList
  | vDict es => (jsonValuePairs es).map vDict

def jsonValueList : List PyVal → Option (List PyVal)
  | [] => some []
  | x :: xs =>
    match jsonValue x, jsonValueList xs with
    | some v, some vs => some (v :: vs)
    | _, _ => none

def jsonValuePairs : List (PyVal × PyVal) → Option (List (PyVal × PyVal))
  | [] => some []
  | (k, v) :: es =>
    match k, jsonValue v, jsonValuePairs es with
    | vStr s, some v', some es' => some ((vStr s, v') :: es')
    | _, _, _ => none

end

/-- A file written under `result_dir = base_path / result_id`: its name and
its content as read back (`jsonF` for `json.dump`ed files, `csvF` for
`df.to_csv`). -/
inductive RFile where
  | jsonF (name : String) (content : PyVal)
  | csvF (name : String) (rows : PyVal)

def RFile.name : RFile → String
  | .jsonF n _ => n
  | .csvF n _ => n

/-- `{**a, **b}`-style merge used for the metadata dict (`b` overrides). -/
def pyDictMerge (a b : List (PyVal × PyVal)) : List (PyVal × PyVal) :=
  a.map (fun p =>
    match b.find? (fun q => pyBeq q.1 p.1) with
    | some q => q
    | none => p)
  ++ b.filter (fun q => (a.find? (fun p => pyBeq p.1 q.1)).isNone)

/-- `QueryResultManager.save_result`.  `uuid` is `str(uuid.uuid4())`,
`timestamp` the formatted `datetime.now()`.  Returns the reference dict and
the files written into `base_path / uuid`; any exception is logged and
re-raised (`Except.error`). -/
def structuredHead (data : PyVal) : Bool :=
  match data with
  | vList (vList _ :: _) => true
  | vList (vTuple _ :: _) => true
  | vList (vDict _ :: _) => true
  | vTuple (vList _ :: _) => true
  | vTuple (vTuple _ :: _) => true
  | vTuple (vDict _ :: _) => true
  | _ => false

/-- The reference dict `save_result` returns. -/
def saveResultRet (basePath uuid : String) (data : PyVal)
    (formatType : String) : PyVal :=
  vDict
    [ (vStr "result_id", vStr uuid),
      (vStr "format", vStr formatType),
      (vStr "path", vStr (basePath ++ "/" ++ uuid)),
      (vStr "size", vInt ((pyLen data).getD 1 : Nat)),
      (vStr "url", vStr ("/api/query_results/" ++ uuid)) ]

def save_result (basePath uuid timestamp : String) (data : PyVal)
    (metadata : Option (List (PyVal × PyVal))) :
    Except String (PyVal × List RFile) :=
  let meta := vDict (pyDictMerge
    [ (vStr "id", vStr uuid),
      (vStr "timestamp", vStr timestamp),
      (vStr "size", vInt ((pyLen data).getD 1 : Nat)) ]
    (metadata.getD []))
  match jsonValue meta with
  | none => .error "TypeError: Object is not JSON serializable"
  | some metaContent =>
    let metaFile := RFile.jsonF "metadata.json" metaContent
    if structuredHead data then
      .ok (saveResultRet basePath uuid data "csv",
           [metaFile, RFile.csvF "data.csv" data])
    else
      match jsonValue data with
      | none => .error "TypeError: Object is not JSON serializable"
      | some c =>
        .ok (saveResultRet basePath uuid data "json",
             [metaFile, RFile.jsonF "data.json" c])

/-- `QueryResultManager.get_result`.  `files` are the files of
`base_path / result_id`; `csvLoad` is
`pd.read_csv(...).to_dict('records')` applied to a written CSV.  Exceptions
(e.g. a missing file) are logged and re-raised. -/
def get_result (files : List RFile) (csvLoad : PyVal → PyVal) :
    Except String PyVal := do
  let metadata ←
    match files.find? (fun f => f.name == "metadata.json") with
    | some (RFile.jsonF _ c) => pure c
    | _ => throw "FileNotFoundError: metadata.json"
  let data ←
    match files.find? (fun f => f.name == "data.csv") with
    | some (RFile.csvF _ rows) => pure (csvLoad rows)
    | _ =>
      match files.find? (fun f => f.name == "data.json") with
      | some (RFile.jsonF _ c) => pure c
      | _ => throw "FileNotFoundError: data.json"
  pure (vDict [(vStr "metadata", metadata), (vStr "data", data)])

/-- `QueryResultManager.get_summary`: reads only `metadata.json`.  The
second component lists the file names read. -/
def get_summary (files : List RFile) : Except String PyVal × List String :=
  (match files.find? (fun f => f.name == "metadata.json") with
   | some (RFile.jsonF _ c) => .ok c
   | _ => .error "FileNotFoundError: metadata.json",
   ["metadata.json"])

end RootAgency

namespace RootAgency

open PyVal

/-! ## SQLQueryTool._extract_sql_and_results (reporting_manager variant,
lines 114–158)

Unlike the inline extraction of `run`, this routine

* applies `_parse_tuple_string` (`ast.literal_eval`) directly to a
  regex-extracted `sql_result` without trying `json.loads` on it first, and
* applies `_parse_tuple_string` to a string-valued `sql_result` even when
  the whole output parsed as JSON. -/

/-- The shared tail of `_extract_sql_and_results` once `parsed_output` is
available (`None` models the `AttributeError` of `.get` on a non-dict,
which the generic `except Exception` handler turns into `('', [], [])`). -/
def extractFromParsed (litEval : String → Option PyVal) (parsed : PyVal) :
    Option SqlExtract :=
  match parsed with
  | vDict pes =>
    let sql := (dgetS pes "sql_query").getD (vStr "")
    let raw := (dgetS pes "sql_result").getD (vList [])
    let cols := (dgetS pes "columns").getD (vList [])
    match raw with
    | vStr rs => some ⟨sql, parseTupleString litEval rs, cols, false, true⟩
    | _ => some ⟨sql, raw, cols, false, false⟩
  | _ => none

/-- `SQLQueryTool._extract_sql_and_results`.  All failure paths other than
`json.JSONDecodeError` end in the generic handler returning `('', [], [])`. -/
def extractSqlAndResults (loads litEval : String → Option PyVal)
    (searchSql searchResults searchColumns : String → Option String)
    (response : PyVal) : SqlExtract :=
  let fallback : SqlExtract := ⟨vStr "", vList [], vList [], false, false⟩
  match response with
  | vDict es =>
    match dgetS es "output" with
    | none => fallback
    | some outv =>
      match outv with
      | vStr s =>
        match loads s with
        | some parsed => (extractFromParsed litEval parsed).getD fallback
        | none =>
          let sql : PyVal := match searchSql s with
            | some g => vStr g
            | none => vStr ""
          let resLE : PyVal × Bool := match searchResults s with
            | some g => (parseTupleString litEval g, true)
            | none => (vList [], false)
          let cols : PyVal := match searchColumns s with
            | some g => (loads g).getD (vList [])
            | none => vList []
          ⟨sql, resLE.1, cols, true, resLE.2⟩
      | _ => (extractFromParsed litEval outv).getD fallback
  | _ => fallback

end RootAgency

namespace RootAgency

open PyVal

/-! ## Claim theorems -/

/-- C6: `get_or_create_thread` is idempotent per conversation id over
`active_threads`: the first call for a `conversation_id` inserts exactly one
entry (the id of the freshly created thread and an empty messages list) and
returns it; every later call with the same `conversation_id` returns that
same entry and leaves the cache unchanged; entries of other conversation
ids are untouched. -/
theorem claim6_get_or_create_thread_idempotent
    (cid nid nid' : String) (a : List (String × ThreadInfo)) (t : ThreadInfo) :
    (atLookup a cid = none →
      get_or_create_thread nid cid a = (ThreadInfo.mk nid [], a ++ [(cid, ThreadInfo.mk nid [])]) ∧
      atLookup (a ++ [(cid, ThreadInfo.mk nid [])]) cid = some (ThreadInfo.mk nid []) ∧
      (∀ k, k ≠ cid → atLookup (a ++ [(cid, ThreadInfo.mk nid [])]) k = atLookup a k) ∧
      (a ++ [(cid, ThreadInfo.mk nid [])]).length = a.length + 1 ∧
      get_or_create_thread nid' cid (a ++ [(cid, ThreadInfo.mk nid [])]) =
        (ThreadInfo.mk nid [], a ++ [(cid, ThreadInfo.mk nid [])])) ∧
    (atLookup a cid = some t → get_or_create_thread nid cid a = (t, a)) := by
  constructor
  · intro hnone
    have hfind : a.find? (fun p => p.1 == cid) = none := by
      unfold atLookup at hnone
      exact Option.map_eq_none.mp hnone
    have hlook : atLookup (a ++ [(cid, ThreadInfo.mk nid [])]) cid = some (ThreadInfo.mk nid []) := by
      unfold atLookup
      rw [List.find?_append, hfind]
      simp [List.find?]
    refine ⟨?_, hlook, ?_, by simp, ?_⟩
    · unfold get_or_create_thread
      rw [hnone]
    · intro k hk
      unfold atLookup
      rw [List.find?_append]
      have : List.find? (fun p => p.1 == k) [(cid, ThreadInfo.mk nid [])] = none := by
        have hne : (cid == k) = false := beq_eq_false_iff_ne.mpr (Ne.symm hk)
        simp [List.find?, hne]
      rw [this]
      cases a.find? (fun p => p.1 == k) <;> simp [atLookup]
    · unfold get_or_create_thread
      rw [hlook]
  · intro hsome
    unfold get_or_create_thread
    rw [hsome]

/-- Witness for C6 at a concrete cache. -/
theorem claim6_witness :
    get_or_create_thread "th_1" "C05:1700.1" [] =
      (ThreadInfo.mk "th_1" [], [("C05:1700.1", ThreadInfo.mk "th_1" [])]) ∧
    get_or_create_thread "th_2" "C05:1700.1" [("C05:1700.1", ThreadInfo.mk "th_1" [])] =
      (ThreadInfo.mk "th_1" [], [("C05:1700.1", ThreadInfo.mk "th_1" [])]) := by
  have h := (claim6_get_or_create_thread_idempotent "C05:1700.1" "th_1" "th_2" []
    (ThreadInfo.mk "th_1" [])).1 (by rfl)
  exact ⟨h.1, by simpa using h.2.2.2.2⟩

end RootAgency

namespace RootAgency

open PyVal

/-- C7 (amended): `DataAnalyzer.run` dispatches on `analysis_type` over the
five supported values `trend`, `forecast`, `segment` (the clustering
routine), `anomaly` and `correlation`, invoking the corresponding analysis
routine on the converted data, and returns
`{"error": "Unsupported analysis type: <type>"}` for every other value. -/
theorem claim7_dataAnalyzer_dispatch
    (pdDF : PyVal → Except String PyVal)
    (tR fR sR aR cR : PyVal → PyVal) (data df : PyVal)
    (h : dataAnalyzerMkDF pdDF data = .ok df) :
    dataAnalyzerRun pdDF tR fR sR aR cR "trend" data = tR df ∧
    dataAnalyzerRun pdDF tR fR sR aR cR "forecast" data = fR df ∧
    dataAnalyzerRun pdDF tR fR sR aR cR "segment" data = sR df ∧
    dataAnalyzerRun pdDF tR fR sR aR cR "anomaly" data = aR df ∧
    dataAnalyzerRun pdDF tR fR sR aR cR "correlation" data = cR df ∧
    (∀ ty : String, ty ≠ "trend" → ty ≠ "forecast" → ty ≠ "segment" →
      ty ≠ "anomaly" → ty ≠ "correlation" →
      dataAnalyzerRun pdDF tR fR sR aR cR ty data =
        vDict [(vStr "error", vStr ("Unsupported analysis type: " ++ ty))]) := by
  refine ⟨?_, ?_, ?_, ?_, ?_, ?_⟩
  · simp [dataAnalyzerRun, h]
  · simp [dataAnalyzerRun, h]
  · simp [dataAnalyzerRun, h]
  · simp [dataAnalyzerRun, h]
  · simp [dataAnalyzerRun, h]
  · intro ty h1 h2 h3 h4 h5
    simp [dataAnalyzerRun, h, beq_eq_false_iff_ne.mpr h1, beq_eq_false_iff_ne.mpr h2,
      beq_eq_false_iff_ne.mpr h3, beq_eq_false_iff_ne.mpr h4, beq_eq_false_iff_ne.mpr h5]

/-- Witness for C7 at concrete routines and data. -/
theorem claim7_witness :
    dataAnalyzerRun Except.ok (fun _ => vStr "T") (fun _ => vStr "F")
      (fun _ => vStr "S") (fun _ => vStr "A") (fun _ => vStr "C")
      "segment" (vList [vInt 1]) = vStr "S" ∧
    dataAnalyzerRun Except.ok (fun _ => vStr "T") (fun _ => vStr "F")
      (fun _ => vStr "S") (fun _ => vStr "A") (fun _ => vStr "C")
      "pivot" (vList [vInt 1]) =
      vDict [(vStr "error", vStr "Unsupported analysis type: pivot")] := by
  have h := claim7_dataAnalyzer_dispatch Except.ok (fun _ => vStr "T")
    (fun _ => vStr "F") (fun _ => vStr "S") (fun _ => vStr "A") (fun _ => vStr "C")
    (vList [vInt 1]) (vList [vInt 1]) (by rfl)
  exact ⟨h.2.2.1, h.2.2.2.2.2 "pivot" (by decide) (by decide) (by decide)
    (by decide) (by decide)⟩

/-- C7 counterexample: the claim's own list of supported `analysis_type`
values is wrong on both sides — the value `"clustering"` is rejected with
an error (clustering is performed by the value `"segment"`), while the
value `"correlation"`, not in the claim's list, performs an analysis
rather than returning an error. -/
theorem claim7_counterexample :
    dataAnalyzerRun Except.ok (fun _ => vStr "T") (fun _ => vStr "F")
      (fun _ => vStr "S") (fun _ => vStr "A") (fun _ => vStr "C")
      "clustering" (vList [vInt 1]) =
      vDict [(vStr "error", vStr "Unsupported analysis type: clustering")] ∧
    dataAnalyzerRun Except.ok (fun _ => vStr "T") (fun _ => vStr "F")
      (fun _ => vStr "S") (fun _ => vStr "A") (fun _ => vStr "C")
      "correlation" (vList [vInt 1]) = vStr "C" := by
  exact ⟨rfl, rfl⟩

end RootAgency

namespace RootAgency

open PyVal

/-- `_save_results` never records a `'json'` path. -/
theorem save_results_find_json (df : DataFrame) (bp : String) :
    (save_results df bp).find? (fun p => p.1 == "json") = none := by
  by_cases h : dfEmpty df <;> simp [save_results, jsonDumpMissingFp, h, List.find?]

/-- `_save_results` records the CSV path exactly when the DataFrame is
non-empty. -/
theorem save_results_find_csv (df : DataFrame) (bp : String) :
    (save_results df bp).find? (fun p => p.1 == "csv") =
      if dfEmpty df then none else some ("csv", bp ++ ".csv") := by
  by_cases h : dfEmpty df <;> simp [save_results, jsonDumpMissingFp, h, List.find?]

/-- Inversion for `runBody`: every success is the tabular result dict built
from the pipeline's DataFrame, cleaned SQL and saved paths, with the saved
paths produced by `_save_results`. -/
theorem runBody_ok_inv {o : SqlOracles} {q : String} {out : SqlRunOut}
    (h : runBody o q = .ok out) :
    out.result = runResultDict q out.cleanedSql out.df out.savedPaths ∧
    out.savedPaths = save_results out.df (o.savePath ++ "/query_results_" ++ o.timestamp) ∧
    (∃ qs, out.extract.sql_query = vStr qs ∧ out.cleanedSql = cleanSqlQuery qs) := by
  unfold runBody at h
  split at h
  · exact absurd h (by simp)
  · split at h
    · exact absurd h (by simp)
    · split at h
      · exact absurd h (by simp)
      · split at h
        · rename_i qs heq
          dsimp only at h
          split at h
          · exact absurd h (by simp)
          · split at h
            · exact absurd h (by simp)
            · rw [Except.ok.injEq] at h
              subst h
              exact ⟨rfl, rfl, qs, heq, rfl⟩
        · exact absurd h (by simp)

/-- Field lookups on the success dict. -/
theorem runResultDict_fields (q cleaned : String) (df : DataFrame)
    (fps : List (String × String)) :
    dictGet (runResultDict q cleaned df fps) "type" = some (vStr "tabular") ∧
    dictGet (runResultDict q cleaned df fps) "row_count" = some (vInt (dfLen df : Nat)) ∧
    dictGet (runResultDict q cleaned df fps) "data" = some (vDict
      [ (vStr "columns", if dfEmpty df then vList [] else dfColsVal df),
        (vStr "rows", if dfEmpty df then vList [] else dfRecordsVal df) ]) ∧
    dictGet (runResultDict q cleaned df fps) "csv_path" =
      some (vStr (((fps.find? (fun p => p.1 == "csv")).map Prod.snd).getD "")) ∧
    dictGet (runResultDict q cleaned df fps) "json_path" =
      some (vStr (((fps.find? (fun p => p.1 == "json")).map Prod.snd).getD "")) ∧
    dictGet (runResultDict q cleaned df fps) "sql_query" = some (vStr cleaned) := by
  exact ⟨rfl, rfl, rfl, rfl, rfl, rfl⟩

/-- C8: JSON persistence in the reporting_manager `SQLQueryTool` never
happens: `_save_results`'s `json.dump(json_data, indent=2,
ensure_ascii=False)` omits the file object, so for every non-empty
DataFrame the JSON branch raises, the exception is caught, and the
returned paths dict has a `'csv'` key but no `'json'` key; consequently
every successful `run` result carries `json_path = ""`. -/
theorem claim8_save_results_never_json (df : DataFrame) (bp : String)
    (o : SqlOracles) (q : String) (out : SqlRunOut) :
    (dfEmpty df = false →
      (save_results df bp).find? (fun p => p.1 == "json") = none ∧
      (save_results df bp).find? (fun p => p.1 == "csv") = some ("csv", bp ++ ".csv")) ∧
    (runBody o q = .ok out →
      dictGet out.result "json_path" = some (vStr "")) := by
  constructor
  · intro hne
    refine ⟨save_results_find_json df bp, ?_⟩
    rw [save_results_find_csv df bp, hne]
    simp
  · intro h
    obtain ⟨hres, hsaved, -⟩ := runBody_ok_inv h
    rw [hres]
    have := (runResultDict_fields q out.cleanedSql out.df out.savedPaths).2.2.2.2.1
    rw [this, hsaved, save_results_find_json]
    simp

end RootAgency

namespace RootAgency

open PyVal

/-- A witness pipeline configuration: the agent answers with valid JSON and
the database returns two rows. -/
def witOracles8 : SqlOracles where
  agentInitialized := true
  agentResponse := .ok (vDict [(vStr "output", vStr "JSONOUT")])
  loads := fun s =>
    if s = "JSONOUT" then
      some (vDict [ (vStr "sql_query", vStr "SELECT name, qty FROM items LIMIT 10"),
                    (vStr "sql_result", vList [vTuple [vStr "a", vInt 3]]),
                    (vStr "columns", vList [vStr "name", vStr "qty"]) ])
    else none
  litEval := fun _ => none
  searchSql := fun _ => none
  searchResults := fun _ => none
  searchColumns := fun _ => none
  dbRun := fun _ => .ok (vList [vTuple [vStr "a", vInt 3], vTuple [vStr "b", vInt 5]])
  savePath := "inventory_results"
  timestamp := "20240101_000000"

/-- The output of the witness pipeline. -/
def witOut8 : SqlRunOut :=
  match runBody witOracles8 "low stock items" with
  | .ok out => out
  | .error _ => ⟨vNone, ⟨vNone, vNone, vNone, false, false⟩, "", ⟨[], []⟩, []⟩

/-- Witness for C8 at a concrete non-empty DataFrame and a concrete
successful run. -/
theorem claim8_witness :
    dfEmpty (DataFrame.mk [vStr "name"] [[(vStr "name", vStr "a")]]) = false ∧
    (save_results (DataFrame.mk [vStr "name"] [[(vStr "name", vStr "a")]])
        "p").find? (fun p => p.1 == "json") = none ∧
    (save_results (DataFrame.mk [vStr "name"] [[(vStr "name", vStr "a")]])
        "p").find? (fun p => p.1 == "csv") = some ("csv", "p.csv") ∧
    dictGet witOut8.result "json_path" = some (vStr "") := by
  have h := claim8_save_results_never_json
    (DataFrame.mk [vStr "name"] [[(vStr "name", vStr "a")]]) "p"
    witOracles8 "low stock items" witOut8
  have h1 := h.1 (by rfl)
  have h2 := h.2 (by rfl)
  exact ⟨rfl, h1.1, h1.2, h2⟩

theorem list_isPrefixOf_append {l m n : List Char}
    (h : l.isPrefixOf m = true) : l.isPrefixOf (m ++ n) = true := by
  induction l generalizing m with
  | nil => simp [List.isPrefixOf]
  | cons a as ih =>
    cases m with
    | nil => simp [List.isPrefixOf] at h
    | cons b bs =>
      simp only [List.isPrefixOf, List.cons_append, Bool.and_eq_true] at h ⊢
      exact ⟨h.1, ih h.2⟩

/-- C3 (amended): each tool operation catches every exception raised during
execution and returns a value instead of re-raising — but the shapes
differ.  `SQLQueryTool.run` always returns a dict that either carries
`type = "error"` together with an `"error"` key or is the tabular success
dict; `NotionPoster.run` always returns a string starting with `"Error"`
(the colon does not always follow immediately) or with `"Successfully"`;
`QueryGenerator.generate_query` returns, on any exception from the agent
call, its empty-result format dict — which contains **no** `"error"` key. -/
theorem claim3_error_handling :
    (∀ (o : SqlOracles) (q : String),
      (dictGet (runSQLTool o q) "type" = some (vStr "error") ∧
        hasKey (runSQLTool o q) "error" = true) ∨
      dictGet (runSQLTool o q) "type" = some (vStr "tabular")) ∧
    (∀ o : NotionOracles,
      "Error".data.isPrefixOf (notionPosterRun o).data = true ∨
      "Successfully".data.isPrefixOf (notionPosterRun o).data = true) ∧
    (∀ (e : String) (loads : String → Option PyVal) (q : String),
      generate_query (.error e) loads q = queryGenErrorFormat q ∧
      hasKey (queryGenErrorFormat q) "error" = false) := by
  refine ⟨?_, ?_, ?_⟩
  · intro o q
    unfold runSQLTool
    cases h : runBody o q with
    | error e => exact Or.inl ⟨rfl, rfl⟩
    | ok out =>
      right
      obtain ⟨hres, -, -⟩ := runBody_ok_inv h
      show dictGet out.result "type" = some (vStr "tabular")
      rw [hres]
      exact (runResultDict_fields q out.cleanedSql out.df out.savedPaths).1
  · intro o
    unfold notionPosterRun
    split
    · exact Or.inl (by rfl)
    · split
      · exact Or.inl (by rfl)
      · split
        · rename_i e
          left
          rw [String.data_append]
          exact list_isPrefixOf_append (by rfl)
        · split
          · rename_i e
            left
            rw [String.data_append]
            exact list_isPrefixOf_append (by rfl)
          · split
            · exact Or.inl (by rfl)
            · split
              · right
                rw [String.data_append, String.data_append, String.data_append]
                exact list_isPrefixOf_append (list_isPrefixOf_append
                  (list_isPrefixOf_append (by rfl)))
              · exact Or.inl (by rfl)
  · intro e loads q
    exact ⟨rfl, rfl⟩

/-- C3 counterexample: whenever the agent call inside
`QueryGenerator.generate_query` raises, the returned value is a dict
without any `"error"` key (its `sql_query` field is `None`) — neither a
dict containing an `"error"` key nor an `"Error:"`-prefixed string. -/
theorem claim3_counterexample :
    generate_query (.error "connection reset") (fun _ => none) "how many items" =
      queryGenErrorFormat "how many items" ∧
    hasKey (queryGenErrorFormat "how many items") "error" = false ∧
    dictGet (queryGenErrorFormat "how many items") "sql_query" = some vNone := by
  exact ⟨rfl, rfl, rfl⟩

end RootAgency

namespace RootAgency

open PyVal

/-- Shared branch facts about `runV3` under a truthy generated query with a
list-valued `sql_result`. -/
theorem runV3_direct_ok (qr : PyVal)
    (dbExec : String → Except String DFrame) (topK : Nat)
    (question ts sqlQuery : String) (rs : List PyVal) (df : DFrame)
    (hq : dictGet qr "sql_query" = some (vStr sqlQuery))
    (hqt : sqlQuery ≠ "")
    (hr : dictGet qr "sql_result" = some (vList rs))
    (hqr : pyTruthy qr = true)
    (h1 : 0 < rs.length) (h2 : rs.length < topK)
    (hconv : convertToDataframeV3 qr = .ok df) :
    runV3 qr dbExec topK question ts =
      ⟨v3Response question sqlQuery ts df, false, none, df⟩ := by
  have hgen : v3GenFailed qr = false := by
    unfold v3GenFailed
    rw [hq, hqr]
    simp [pyTruthy, hqt]
  unfold runV3
  rw [hgen, hq]
  simp only [Bool.false_eq_true, if_false, Option.getD_some, hr, pyLen]
  have hdir : v3UsesDirect rs.length topK = true := by
    simp [v3UsesDirect, h1, h2]
  rw [hdir]
  simp only [if_true]
  rw [hconv]

theorem runV3_direct_err (qr : PyVal)
    (dbExec : String → Except String DFrame) (topK : Nat)
    (question ts sqlQuery : String) (rs : List PyVal) (e : String)
    (hq : dictGet qr "sql_query" = some (vStr sqlQuery))
    (hqt : sqlQuery ≠ "")
    (hr : dictGet qr "sql_result" = some (vList rs))
    (hqr : pyTruthy qr = true)
    (h1 : 0 < rs.length) (h2 : rs.length < topK)
    (hconv : convertToDataframeV3 qr = .error e) :
    runV3 qr dbExec topK question ts =
      v3ErrOut ("Error executing query: " ++ e) := by
  have hgen : v3GenFailed qr = false := by
    unfold v3GenFailed
    rw [hq, hqr]
    simp [pyTruthy, hqt]
  unfold runV3
  rw [hgen, hq]
  simp only [Bool.false_eq_true, if_false, Option.getD_some, hr, pyLen]
  have hdir : v3UsesDirect rs.length topK = true := by
    simp [v3UsesDirect, h1, h2]
  rw [hdir]
  simp only [if_true]
  rw [hconv]

theorem runV3_traditional (qr : PyVal)
    (dbExec : String → Except String DFrame) (topK : Nat)
    (question ts sqlQuery : String) (rs : List PyVal) (df : DFrame)
    (hq : dictGet qr "sql_query" = some (vStr sqlQuery))
    (hqt : sqlQuery ≠ "")
    (hr : dictGet qr "sql_result" = some (vList rs))
    (hqr : pyTruthy qr = true)
    (hcase : rs.length = 0 ∨ topK ≤ rs.length)
    (hdf : dbExec (cleanQueryV3 sqlQuery) = .ok df) :
    runV3 qr dbExec topK question ts =
      ⟨v3Response question sqlQuery ts df, true,
       some (cleanQueryV3 sqlQuery), df⟩ := by
  have hgen : v3GenFailed qr = false := by
    unfold v3GenFailed
    rw [hq, hqr]
    simp [pyTruthy, hqt]
  unfold runV3
  rw [hgen, hq]
  simp only [Bool.false_eq_true, if_false, Option.getD_some, hr, pyLen]
  have hdir : v3UsesDirect rs.length topK = false := by
    rcases hcase with h | h <;> simp [v3UsesDirect, h] <;> omega
  rw [hdir]
  simp only [Bool.false_eq_true, if_false]
  unfold executeTraditionalQuery
  rw [hdf]

/-- C2 (amended): `SQLQueryToolV3.run` uses the rows returned by the LLM
agent directly exactly when their number is strictly between 0 and `top_k`
(a row-count threshold, default 10) — producing the success response when
`pd.DataFrame(sql_result, columns=columns)` accepts the shape and the
error JSON when it raises; in every other case that reaches the branch —
including an *empty* initial result set and a result set of exactly
`top_k` rows — it re-executes the generated SQL directly against the
database with LIMIT/OFFSET clauses removed. -/
theorem claim2_requery_characterisation (qr : PyVal)
    (dbExec : String → Except String DFrame) (topK : Nat)
    (question ts sqlQuery : String) (rs : List PyVal)
    (hq : dictGet qr "sql_query" = some (vStr sqlQuery))
    (hqt : sqlQuery ≠ "")
    (hr : dictGet qr "sql_result" = some (vList rs))
    (hqr : pyTruthy qr = true) :
    (0 < rs.length ∧ rs.length < topK →
      (∀ df, convertToDataframeV3 qr = .ok df →
        runV3 qr dbExec topK question ts =
          ⟨v3Response question sqlQuery ts df, false, none, df⟩) ∧
      (∀ e, convertToDataframeV3 qr = .error e →
        runV3 qr dbExec topK question ts =
          v3ErrOut ("Error executing query: " ++ e))) ∧
    (rs.length = 0 ∨ topK ≤ rs.length →
      ∀ df, dbExec (cleanQueryV3 sqlQuery) = .ok df →
        runV3 qr dbExec topK question ts =
          ⟨v3Response question sqlQuery ts df, true,
           some (cleanQueryV3 sqlQuery), df⟩) := by
  constructor
  · rintro ⟨h1, h2⟩
    constructor
    · intro df hconv
      exact runV3_direct_ok qr dbExec topK question ts sqlQuery rs df
        hq hqt hr hqr h1 h2 hconv
    · intro e hconv
      exact runV3_direct_err qr dbExec topK question ts sqlQuery rs e
        hq hqt hr hqr h1 h2 hconv
  · intro hcase df hdf
    exact runV3_traditional qr dbExec topK question ts sqlQuery rs df
      hq hqt hr hqr hcase hdf

/-- The generated query result of a run whose initial result set is empty. -/
def cexQr2 : PyVal :=
  vDict [ (vStr "question", vStr "list items"),
          (vStr "sql_query", vStr "SELECT a FROM t"),
          (vStr "limit_requested", vBool false),
          (vStr "columns", vList []),
          (vStr "sql_result", vList []) ]

def cexDb2 : String → Except String DFrame :=
  fun _ => .ok ⟨[vStr "a"], [vList [vInt 1]]⟩

/-- C2 counterexample: with an *empty* initial result set (0 rows — below
any threshold, so the claim's "re-executes exactly when the initial result
set exceeds a token-count threshold" says the rows should be used
directly), V3 nevertheless re-executes the query against the database. -/
theorem claim2_counterexample :
    (runV3 cexQr2 cexDb2 10 "list items" "ts").usedTraditional = true ∧
    (runV3 cexQr2 cexDb2 10 "list items" "ts").executedQuery =
      some "SELECT a FROM t" ∧
    (0 : Nat) < 10 := by
  refine ⟨rfl, ?_, by decide⟩
  show some (cleanQueryV3 "SELECT a FROM t") = some "SELECT a FROM t"
  rfl

/-- Witness for C2 at a concrete one-row result set (used directly) and a
concrete ten-row result set (re-queried). -/
def witQr2 : PyVal :=
  vDict [ (vStr "question", vStr "count items"),
          (vStr "sql_query", vStr "SELECT n FROM t LIMIT 10"),
          (vStr "limit_requested", vBool false),
          (vStr "columns", vList [vStr "n"]),
          (vStr "sql_result", vList [vList [vInt 7]]) ]

/-- A one-row result whose single row is wider than its column list — the
`pd.DataFrame` constructor rejects it. -/
def witQr2bad : PyVal :=
  vDict [ (vStr "question", vStr "count items"),
          (vStr "sql_query", vStr "SELECT n FROM t LIMIT 10"),
          (vStr "limit_requested", vBool false),
          (vStr "columns", vList [vStr "n"]),
          (vStr "sql_result", vList [vList [vInt 7, vInt 8]]) ]

theorem claim2_witness :
    runV3 witQr2 cexDb2 10 "count items" "ts" =
      ⟨v3Response "count items" "SELECT n FROM t LIMIT 10" "ts"
        ⟨[vStr "n"], [vList [vInt 7]]⟩, false, none,
        ⟨[vStr "n"], [vList [vInt 7]]⟩⟩ ∧
    runV3 witQr2bad cexDb2 10 "count items" "ts" =
      v3ErrOut ("Error executing query: " ++
        "ValueError: 1 columns passed, passed data had 2 columns") ∧
    runV3 cexQr2 cexDb2 10 "list items" "ts" =
      ⟨v3Response "list items" "SELECT a FROM t" "ts" ⟨[vStr "a"], [vList [vInt 1]]⟩,
        true, some (cleanQueryV3 "SELECT a FROM t"), ⟨[vStr "a"], [vList [vInt 1]]⟩⟩ := by
  refine ⟨?_, ?_, ?_⟩
  · exact ((claim2_requery_characterisation witQr2 cexDb2 10 "count items" "ts"
      "SELECT n FROM t LIMIT 10" [vList [vInt 7]] rfl (by decide) rfl rfl).1
      ⟨by decide, by decide⟩).1 ⟨[vStr "n"], [vList [vInt 7]]⟩ (by rfl)
  · exact ((claim2_requery_characterisation witQr2bad cexDb2 10 "count items" "ts"
      "SELECT n FROM t LIMIT 10" [vList [vInt 7, vInt 8]] rfl (by decide) rfl rfl).1
      ⟨by decide, by decide⟩).2
      "ValueError: 1 columns passed, passed data had 2 columns" (by rfl)
  · exact (claim2_requery_characterisation cexQr2 cexDb2 10 "list items" "ts"
      "SELECT a FROM t" [] rfl (by decide) rfl rfl).2 (Or.inl rfl)
      ⟨[vStr "a"], [vList [vInt 1]]⟩ rfl

end RootAgency

namespace RootAgency

open PyVal

/-- Every `runV3` result is either an error response or the success
response built from the run's own DataFrame. -/
theorem runV3_shape (qr : PyVal) (dbExec : String → Except String DFrame)
    (topK : Nat) (question ts : String) :
    (∃ e, (runV3 qr dbExec topK question ts).response =
      vDict [(vStr "error", vStr e)]) ∨
    (∃ sq, (runV3 qr dbExec topK question ts).response =
      v3Response question sq ts (runV3 qr dbExec topK question ts).df) := by
  unfold runV3
  dsimp only
  repeat' split
  all_goals first
    | exact Or.inl ⟨_, rfl⟩
    | exact Or.inr ⟨_, rfl⟩

/-- C4 (amended): on every successful execution `SQLQueryTool.run` returns
a dict whose `row_count` equals the number of rows of the produced table
and whose `data.columns` list equals the table's column names for a
non-empty table (`[]` for an empty one); `csv_path` is the persisted CSV
path for a non-empty table and `""` otherwise, and `json_path` is always
`""` because JSON persistence always fails (`_save_results`'s broken
`json.dump` call).  The V3 variant's response carries the GCS header and
response URIs and a `total_records` count equal to the DataFrame length. -/
theorem claim4_run_metadata :
    (∀ (o : SqlOracles) (q : String) (out : SqlRunOut), runBody o q = .ok out →
      dictGet out.result "row_count" = some (vInt (dfLen out.df : Nat)) ∧
      dictGet out.result "data" = some (vDict
        [ (vStr "columns", if dfEmpty out.df then vList [] else dfColsVal out.df),
          (vStr "rows", if dfEmpty out.df then vList [] else dfRecordsVal out.df) ]) ∧
      dictGet out.result "csv_path" = some (vStr (if dfEmpty out.df then ""
        else o.savePath ++ "/query_results_" ++ o.timestamp ++ ".csv")) ∧
      dictGet out.result "json_path" = some (vStr "")) ∧
    (∀ (qr : PyVal) (dbExec : String → Except String DFrame) (topK : Nat)
        (question ts : String),
      hasKey (runV3 qr dbExec topK question ts).response "error" = false →
      dictGet (runV3 qr dbExec topK question ts).response "gcs_uris" =
        some (vDict [ (vStr "header_uri", vStr (gcsHeaderUri ts)),
                      (vStr "response_uri", vStr (gcsResponseUri ts)) ]) ∧
      dictGet ((dictGet (runV3 qr dbExec topK question ts).response
          "metadata").getD vNone) "total_records" =
        some (vInt (dfrLen (runV3 qr dbExec topK question ts).df : Nat))) := by
  constructor
  · intro o q out h
    obtain ⟨hres, hsaved, -⟩ := runBody_ok_inv h
    have hf := runResultDict_fields q out.cleanedSql out.df out.savedPaths
    rw [hres]
    refine ⟨hf.2.1, hf.2.2.1, ?_, ?_⟩
    · rw [hf.2.2.2.1, hsaved, save_results_find_csv]
      by_cases he : dfEmpty out.df <;> simp [he]
    · rw [hf.2.2.2.2.1, hsaved, save_results_find_json]
      simp
  · intro qr dbExec topK question ts hk
    rcases runV3_shape qr dbExec topK question ts with ⟨e, he⟩ | ⟨sq, hs⟩
    · rw [he] at hk
      exact absurd hk (by simp [hasKey, dictGet, dgetS, dgetK, pyBeq])
    · rw [hs]
      exact ⟨rfl, rfl⟩

/-- C4 counterexample: a concrete successful run (type `"tabular"`, two
rows persisted to CSV) whose returned dict does *not* contain the path of a
persisted JSON file — no JSON file is written at all and `json_path` is the
empty string. -/
theorem claim4_counterexample :
    runBody witOracles8 "low stock items" = .ok witOut8 ∧
    dictGet witOut8.result "type" = some (vStr "tabular") ∧
    witOut8.savedPaths.find? (fun p => p.1 == "json") = none ∧
    dictGet witOut8.result "json_path" = some (vStr "") ∧
    dictGet witOut8.result "csv_path" =
      some (vStr "inventory_results/query_results_20240101_000000.csv") := by
  exact ⟨rfl, rfl, rfl, rfl, rfl⟩

/-- Witness for C4 at the concrete pipeline of `witOracles8` and a concrete
V3 run. -/
theorem claim4_witness :
    dictGet witOut8.result "row_count" = some (vInt (dfLen witOut8.df : Nat)) ∧
    dictGet witOut8.result "json_path" = some (vStr "") ∧
    dictGet ((dictGet (runV3 witQr2 cexDb2 10 "count items" "ts").response
        "metadata").getD vNone) "total_records" =
      some (vInt (dfrLen (runV3 witQr2 cexDb2 10 "count items" "ts").df : Nat)) := by
  have h1 := (claim4_run_metadata.1 witOracles8 "low stock items" witOut8 (by rfl))
  have h2 := (claim4_run_metadata.2 witQr2 cexDb2 10 "count items" "ts" (by rfl))
  exact ⟨h1.1, h1.2.2.2, h2.2⟩

end RootAgency

namespace RootAgency

open PyVal

/-- C10 (amended): `QueryResultManager` round-trips unstructured data *up
to JSON serialisation*: for every JSON-serialisable value that is not a
non-empty list/tuple with a structured first element, `save_result` stores
it under the given fresh `result_id` with format `"json"` and metadata
`size` equal to `len(data)` when the value has a length (1 otherwise);
`get_result` returns the JSON round-trip of the saved value as `'data'`
(which equals the saved value exactly when the value is already in
canonical JSON form — a saved *tuple* comes back as a list); and
`get_summary` returns the same metadata while reading only
`metadata.json`. -/
theorem claim10_round_trip (basePath uuid ts : String) (data d' : PyVal)
    (csvLoad : PyVal → PyVal) (ret : PyVal) (files : List RFile)
    (hjson : jsonValue data = some d')
    (hstruct : structuredHead data = false)
    (hsave : save_result basePath uuid ts data none = .ok (ret, files)) :
    ret = saveResultRet basePath uuid data "json" ∧
    dictGet ret "format" = some (vStr "json") ∧
    dictGet ret "result_id" = some (vStr uuid) ∧
    dictGet ret "size" = some (vInt ((pyLen data).getD 1 : Nat)) ∧
    files = [RFile.jsonF "metadata.json" (vDict
        [ (vStr "id", vStr uuid), (vStr "timestamp", vStr ts),
          (vStr "size", vInt ((pyLen data).getD 1 : Nat)) ]),
      RFile.jsonF "data.json" d'] ∧
    get_result files csvLoad = .ok (vDict
      [ (vStr "metadata", vDict
          [ (vStr "id", vStr uuid), (vStr "timestamp", vStr ts),
            (vStr "size", vInt ((pyLen data).getD 1 : Nat)) ]),
        (vStr "data", d') ]) ∧
    get_summary files = (.ok (vDict
        [ (vStr "id", vStr uuid), (vStr "timestamp", vStr ts),
          (vStr "size", vInt ((pyLen data).getD 1 : Nat)) ]),
      ["metadata.json"]) := by
  unfold save_result at hsave
  rw [hstruct, hjson] at hsave
  have h2 : (Except.ok (ε := String)
      (saveResultRet basePath uuid data "json",
       [RFile.jsonF "metadata.json" (vDict
          [ (vStr "id", vStr uuid), (vStr "timestamp", vStr ts),
            (vStr "size", vInt ((pyLen data).getD 1 : Nat)) ]),
        RFile.jsonF "data.json" d'])) = .ok (ret, files) := hsave
  rw [Except.ok.injEq, Prod.mk.injEq] at h2
  obtain ⟨hret, hfiles⟩ := h2
  subst hret
  subst hfiles
  exact ⟨rfl, rfl, rfl, rfl, rfl, rfl, rfl⟩

/-- The files written by saving the tuple `(1, 2)`. -/
def cex10files : List RFile :=
  match save_result "./query_results" "id-0" "ts" (vTuple [vInt 1, vInt 2]) none with
  | .ok (_, files) => files
  | .error _ => []

/-- C10 counterexample: saving the JSON-serialisable tuple `(1, 2)` (not a
non-empty list/tuple with structured first element) and reading it back
yields the *list* `[1, 2]`, not the saved tuple — `get_result` does not
return exactly the saved value. -/
theorem claim10_counterexample :
    (∃ ret, save_result "./query_results" "id-0" "ts"
      (vTuple [vInt 1, vInt 2]) none = .ok (ret, cex10files)) ∧
    get_result cex10files (fun v => v) = .ok (vDict
      [ (vStr "metadata", vDict
          [ (vStr "id", vStr "id-0"), (vStr "timestamp", vStr "ts"),
            (vStr "size", vInt 2) ]),
        (vStr "data", vList [vInt 1, vInt 2]) ]) ∧
    vList [vInt 1, vInt 2] ≠ vTuple [vInt 1, vInt 2] := by
  exact ⟨⟨_, rfl⟩, rfl, fun h => PyVal.noConfusion h⟩

/-- The saved reference and files of the witness value `"hello"`. -/
def wit10 : PyVal × List RFile :=
  match save_result "./query_results" "id-1" "ts" (vStr "hello") none with
  | .ok p => p
  | .error _ => (vNone, [])

/-- Witness for C10 at the concrete value `"hello"`. -/
theorem claim10_witness :
    wit10.1 = saveResultRet "./query_results" "id-1" (vStr "hello") "json" ∧
    dictGet wit10.1 "format" = some (vStr "json") ∧
    get_result wit10.2 (fun v => v) = .ok (vDict
      [ (vStr "metadata", vDict
          [ (vStr "id", vStr "id-1"), (vStr "timestamp", vStr "ts"),
            (vStr "size", vInt 5) ]),
        (vStr "data", vStr "hello") ]) ∧
    get_summary wit10.2 = (.ok (vDict
        [ (vStr "id", vStr "id-1"), (vStr "timestamp", vStr "ts"),
          (vStr "size", vInt 5) ]),
      ["metadata.json"]) := by
  have h := claim10_round_trip "./query_results" "id-1" "ts" (vStr "hello")
    (vStr "hello") (fun v => v) wit10.1 wit10.2 (by rfl) (by rfl) (by rfl)
  exact ⟨h.1, h.2.1, h.2.2.2.2.2.1, h.2.2.2.2.2.2⟩

end RootAgency

namespace RootAgency

open PyVal

/-! ## src/SQLQueryTOOL.py run: the three-method extraction (lines 289–331)

Unlike the reporting_manager variant, after Method 1 (`json.loads` of the
whole output) and Method 2 (per-field regex on `json.JSONDecodeError`,
trying `json.loads` before `_parse_tuple_string` on the results group),
this variant applies a third fallback whenever the extracted `sql_result`
is falsy — even when the whole output parsed as valid JSON: a bracket scan
`re.search(r'\[(.*?)\]', output, re.DOTALL)`, whose capture is re-wrapped
in brackets for `json.loads` and passed bare to `_parse_tuple_string`. -/

structure TopExtract where
  sql_query : PyVal
  raw_results : PyVal
  usedRegex : Bool
  usedListScan : Bool
  usedLitEval : Bool

/-- Method 3 (lines 323–331), applied to the fields Methods 1–2 produced. -/
def topMethod3 (loads litEval : String → Option PyVal)
    (searchList : String → Option String) (s : String)
    (sql raw : PyVal) (uR uLE : Bool) : TopExtract :=
  if pyTruthy raw then ⟨sql, raw, uR, false, uLE⟩
  else
    match searchList s with
    | none => ⟨sql, raw, uR, false, uLE⟩
    | some g =>
      match loads ("[" ++ g ++ "]") with
      | some v => ⟨sql, v, uR, true, uLE⟩
      | none => ⟨sql, parseTupleString litEval g, uR, true, true⟩

/-- The extraction of `src/SQLQueryTOOL.py`'s `run`.  `output` is
`agent_response.get('output', '')` for a dict response and
`str(agent_response)` otherwise; `searchList` is the Method 3 capture.
`Except.error` is an exception (`.get` on a non-dict parse result) that
reaches the `except Exception` handler of lines 380–387. -/
def topRunExtract (loads litEval : String → Option PyVal)
    (searchSql searchResults searchList : String → Option String)
    (output : PyVal) : Except String TopExtract :=
  match output with
  | vStr s =>
    match loads s with
    | some respData =>
      match respData with
      | vDict pes =>
        .ok (topMethod3 loads litEval searchList s
          ((dgetS pes "sql_query").getD (vStr ""))
          ((dgetS pes "sql_result").getD (vList []))
          false false)
      | _ => .error "AttributeError: object has no attribute get"
    | none =>
      let sql : PyVal := match searchSql s with
        | some g => vStr g
        | none => vStr ""
      let rrLE : PyVal × Bool := match searchResults s with
        | some g =>
          match loads g with
          | some v => (v, false)
          | none => (parseTupleString litEval g, true)
        | none => (vList [], false)
      .ok (topMethod3 loads litEval searchList s sql rrLE.1 true rrLE.2)
  | v =>
    match v with
    | vDict pes =>
      .ok ⟨(dgetS pes "sql_query").getD (vStr ""),
           (dgetS pes "sql_result").getD (vList []), false, false, false⟩
    | _ => .error "AttributeError: object has no attribute get"

end RootAgency

namespace RootAgency

open PyVal

/-- C1 (amended): the inline extraction of the reporting_manager
`SQLQueryTool.run` follows the claimed precedence: `json.loads` of the
whole output first; only on `JSONDecodeError` the per-field regexes; and
for a regex-extracted `sql_result` group, `json.loads` first and
`ast.literal_eval` only if that fails — for a valid-JSON dict output the
regex and literal-eval paths are never taken and the fields are the JSON
fields (with `.get` defaults).  In `src/SQLQueryTOOL.py`'s `run`, Methods
1–2 follow the same precedence and a valid-JSON output with a *truthy*
`sql_result` takes no fallback path, but Method 3 applies a bracket-scan
regex with `json.loads`-then-`literal_eval` whenever the extracted
`sql_result` is falsy, even after a successful JSON parse.
(`_extract_sql_and_results` does **not** follow the precedence at all —
see the counterexample.) -/
theorem claim1_run_extraction_precedence (o : SqlOracles) (s : String)
    (es pes : List (PyVal × PyVal))
    (hresp : o.agentResponse = .ok (vDict es))
    (hout : dgetS es "output" = some (vStr s)) :
    (o.loads s = some (vDict pes) →
      runExtractStep o = .ok ⟨(dgetS pes "sql_query").getD (vStr ""),
        (dgetS pes "sql_result").getD (vList []),
        (dgetS pes "columns").getD (vList []), false, false⟩) ∧
    (o.loads s = none → ∀ g v, o.searchResults s = some g →
      o.loads g = some v →
      ∃ ex, runExtractStep o = .ok ex ∧ ex.raw_results = v ∧
        ex.usedRegex = true ∧ ex.usedLitEval = false) ∧
    (o.loads s = none → ∀ g, o.searchResults s = some g →
      o.loads g = none →
      ∃ ex, runExtractStep o = .ok ex ∧
        ex.raw_results = parseTupleString o.litEval g ∧
        ex.usedRegex = true ∧ ex.usedLitEval = true) ∧
    (∀ (loads litEval : String → Option PyVal)
        (sSql sRes sList : String → Option String) (t : String)
        (qes : List (PyVal × PyVal)),
      loads t = some (vDict qes) →
      pyTruthy ((dgetS qes "sql_result").getD (vList [])) = true →
      topRunExtract loads litEval sSql sRes sList (vStr t) =
        .ok ⟨(dgetS qes "sql_query").getD (vStr ""),
             (dgetS qes "sql_result").getD (vList []),
             false, false, false⟩) ∧
    (∀ (loads litEval : String → Option PyVal)
        (sSql sRes sList : String → Option String) (t g : String)
        (qes : List (PyVal × PyVal)) (v : PyVal),
      loads t = some (vDict qes) →
      pyTruthy ((dgetS qes "sql_result").getD (vList [])) = false →
      sList t = some g → loads ("[" ++ g ++ "]") = some v →
      topRunExtract loads litEval sSql sRes sList (vStr t) =
        .ok ⟨(dgetS qes "sql_query").getD (vStr ""), v,
             false, true, false⟩) ∧
    (∀ (loads litEval : String → Option PyVal)
        (sSql sRes sList : String → Option String) (t g : String) (v : PyVal),
      loads t = none → sRes t = some g → loads g = some v →
      pyTruthy v = true →
      ∃ ex, topRunExtract loads litEval sSql sRes sList (vStr t) = .ok ex ∧
        ex.raw_results = v ∧ ex.usedRegex = true ∧
        ex.usedLitEval = false ∧ ex.usedListScan = false) := by
  refine ⟨?_, ?_, ?_, ?_, ?_, ?_⟩
  · intro hloads
    unfold runExtractStep
    rw [hresp]
    dsimp only
    rw [hout]
    dsimp only
    rw [hloads]
  · intro hnone g v hg hgv
    unfold runExtractStep
    rw [hresp]
    dsimp only
    rw [hout]
    dsimp only
    rw [hnone]
    dsimp only
    rw [hg]
    dsimp only
    rw [hgv]
    exact ⟨_, rfl, rfl, rfl, rfl⟩
  · intro hnone g hg hgn
    unfold runExtractStep
    rw [hresp]
    dsimp only
    rw [hout]
    dsimp only
    rw [hnone]
    dsimp only
    rw [hg]
    dsimp only
    rw [hgn]
    exact ⟨_, rfl, rfl, rfl, rfl⟩
  · intro loads litEval sSql sRes sList t qes hloads htruthy
    simp only [topRunExtract, topMethod3, hloads, htruthy, if_true]
  · intro loads litEval sSql sRes sList t g qes v hloads hfalsy hlist hbr
    simp only [topRunExtract, topMethod3, hloads, hfalsy, hlist, hbr,
      Bool.false_eq_true, if_false]
  · intro loads litEval sSql sRes sList t g v hnone hres hgv htruthy
    simp only [topRunExtract, topMethod3, hnone, hres, hgv, htruthy, if_true]
    exact ⟨_, rfl, rfl, rfl, rfl, rfl⟩

/-- `json.loads` for the counterexample: fails on the whole output, would
succeed on the regex-extracted group `"[true]"`. -/
def cexLoads1 : String → Option PyVal := fun g =>
  if g = "[true]" then some (vList [vBool true]) else none

/-- `json.loads` for the top-variant counterexample facet: the whole
output is valid JSON with a falsy `sql_result`, and the bracket scan of
that very output re-parses the `columns` array. -/
def cexLoadsTop : String → Option PyVal := fun t =>
  if t = "JSON_FALSY" then
    some (vDict [ (vStr "sql_query", vStr "SELECT a FROM t"),
                  (vStr "sql_result", vStr ""),
                  (vStr "columns", vList [vStr "a"]) ])
  else if t = "[\"a\"]" then some (vList [vStr "a"])
  else none

/-- C1 counterexample, two facets.  (1) In `_extract_sql_and_results` the
regex fallback hands the extracted `sql_result` group straight to
`_parse_tuple_string`/`ast.literal_eval` without trying `json.loads`
first: for the group `"[true]"` (valid JSON, not a Python literal),
`json.loads` would give `[True]`, but the routine swallows the
`literal_eval` failure and returns `[]`.  (2) In `src/SQLQueryTOOL.py`'s
`run`, a *valid-JSON* output whose `sql_result` field is the falsy `""`
still takes the Method 3 regex path, which replaces the field with the
first bracketed text of the output (here the `columns` array) — the
returned field differs from the corresponding JSON field. -/
theorem claim1_counterexample :
    (extractSqlAndResults cexLoads1 (fun _ => none) (fun _ => some "SELECT 1")
      (fun _ => some "[true]") (fun _ => none)
      (vDict [(vStr "output", vStr "NOT JSON")])).raw_results = vList [] ∧
    (extractSqlAndResults cexLoads1 (fun _ => none) (fun _ => some "SELECT 1")
      (fun _ => some "[true]") (fun _ => none)
      (vDict [(vStr "output", vStr "NOT JSON")])).usedLitEval = true ∧
    cexLoads1 "[true]" = some (vList [vBool true]) ∧
    vList ([] : List PyVal) ≠ vList [vBool true] ∧
    topRunExtract cexLoadsTop (fun _ => none) (fun _ => none) (fun _ => none)
      (fun _ => some "\"a\"") (vStr "JSON_FALSY") =
      .ok ⟨vStr "SELECT a FROM t", vList [vStr "a"], false, true, false⟩ ∧
    vList [vStr "a"] ≠ vStr "" := by
  refine ⟨rfl, rfl, rfl, ?_, rfl, ?_⟩
  · intro h
    injection h with h2
    exact List.noConfusion h2
  · intro h
    exact PyVal.noConfusion h

/-- Oracles for the C1 witness: a valid-JSON agent output. -/
def witO1a : SqlOracles where
  agentInitialized := true
  agentResponse := .ok (vDict [(vStr "output", vStr "J")])
  loads := fun s =>
    if s = "J" then
      some (vDict [ (vStr "sql_query", vStr "SELECT 1"),
                    (vStr "sql_result", vList [vInt 1]),
                    (vStr "columns", vList [vStr "c"]) ])
    else none
  litEval := fun _ => none
  searchSql := fun _ => none
  searchResults := fun _ => none
  searchColumns := fun _ => none
  dbRun := fun _ => .ok (vList [])
  savePath := "p"
  timestamp := "t"

/-- Oracles for the C1 witness: an invalid-JSON output whose regex-extracted
results group fails `json.loads` too. -/
def witO1b : SqlOracles where
  agentInitialized := true
  agentResponse := .ok (vDict [(vStr "output", vStr "plain text")])
  loads := fun _ => none
  litEval := fun g => if g = "[(1, 2)]" then some (vList [vTuple [vInt 1, vInt 2]]) else none
  searchSql := fun _ => some "SELECT 1"
  searchResults := fun _ => some "[(1, 2)]"
  searchColumns := fun _ => none
  dbRun := fun _ => .ok (vList [])
  savePath := "p"
  timestamp := "t"

/-- `json.loads` for the top-variant witness: valid-JSON output with a
truthy `sql_result`. -/
def witLoadsTop : String → Option PyVal := fun t =>
  if t = "JT" then
    some (vDict [ (vStr "sql_query", vStr "SELECT 1"),
                  (vStr "sql_result", vList [vInt 1]) ])
  else none

/-- Witness for C1 at concrete oracles: the JSON path, the
regex-then-literal-eval path, and the two top-variant valid-JSON cases
(truthy `sql_result`: no fallback; falsy `sql_result`: Method 3 list
scan fires). -/
theorem claim1_witness :
    runExtractStep witO1a =
      .ok ⟨vStr "SELECT 1", vList [vInt 1], vList [vStr "c"], false, false⟩ ∧
    (∃ ex, runExtractStep witO1b = .ok ex ∧
      ex.raw_results = parseTupleString witO1b.litEval "[(1, 2)]" ∧
      ex.usedRegex = true ∧ ex.usedLitEval = true) ∧
    topRunExtract witLoadsTop (fun _ => none) (fun _ => none) (fun _ => none)
      (fun _ => none) (vStr "JT") =
      .ok ⟨vStr "SELECT 1", vList [vInt 1], false, false, false⟩ ∧
    topRunExtract cexLoadsTop (fun _ => none) (fun _ => none) (fun _ => none)
      (fun _ => some "\"a\"") (vStr "JSON_FALSY") =
      .ok ⟨vStr "SELECT a FROM t", vList [vStr "a"], false, true, false⟩ := by
  refine ⟨?_, ?_, ?_, ?_⟩
  · exact (claim1_run_extraction_precedence witO1a "J"
      [(vStr "output", vStr "J")]
      [ (vStr "sql_query", vStr "SELECT 1"),
        (vStr "sql_result", vList [vInt 1]),
        (vStr "columns", vList [vStr "c"]) ] rfl rfl).1 rfl
  · exact (claim1_run_extraction_precedence witO1b "plain text"
      [(vStr "output", vStr "plain text")] [] rfl rfl).2.2.1 rfl "[(1, 2)]" rfl rfl
  · exact (claim1_run_extraction_precedence witO1a "J"
      [(vStr "output", vStr "J")] [] rfl rfl).2.2.2.1
      witLoadsTop (fun _ => none) (fun _ => none) (fun _ => none)
      (fun _ => none) "JT"
      [ (vStr "sql_query", vStr "SELECT 1"),
        (vStr "sql_result", vList [vInt 1]) ] rfl rfl
  · exact (claim1_run_extraction_precedence witO1a "J"
      [(vStr "output", vStr "J")] [] rfl rfl).2.2.2.2.1
      cexLoadsTop (fun _ => none) (fun _ => none) (fun _ => none)
      (fun _ => some "\"a\"") "JSON_FALSY" "\"a\""
      [ (vStr "sql_query", vStr "SELECT a FROM t"),
        (vStr "sql_result", vStr ""),
        (vStr "columns", vList [vStr "a"]) ] (vList [vStr "a"])
      rfl rfl rfl rfl

end RootAgency

namespace RootAgency

open PyVal

/-- Every listed access touches only `slack-chats/<channel_id>:<thread_ts>`. -/
def opsOnly (channel_id thread_ts : String) (ops : List FsAccess) : Bool :=
  ops.all (fun a =>
    a.coll == "slack-chats" && a.doc == conversationId channel_id thread_ts)

theorem get_threads_from_db_ops (store : FsStore) (cid : String) :
    (get_threads_from_db store cid).2 = [FsAccess.read "slack-chats" cid] := by
  unfold get_threads_from_db
  split
  · split <;> rfl
  · rfl

theorem save_thread_ops (store : FsStore) (ch ts uid msg : String)
    (md : Option PyVal) (now : String) :
    opsOnly ch ts (save_thread store ch ts uid msg md now).2 = true := by
  unfold save_thread
  dsimp only
  rcases hpair : get_threads_from_db store (conversationId ch ts) with ⟨existing, ops1⟩
  have hops : ops1 = [FsAccess.read "slack-chats" (conversationId ch ts)] := by
    have h := get_threads_from_db_ops store (conversationId ch ts)
    rw [hpair] at h
    exact h
  subst hops
  dsimp only
  split <;> simp [opsOnly, save_threads_to_db, FsAccess.coll, FsAccess.doc]

theorem update_thread_ops (store : FsStore) (ts : String)
    (upd : List (String × PyVal)) (ch now : String) :
    opsOnly ch ts (update_thread store ts upd (some ch) now).2 = true := by
  unfold update_thread
  dsimp only
  rcases hpair : get_threads_from_db store (conversationId ch ts) with ⟨existing, ops1⟩
  have hops : ops1 = [FsAccess.read "slack-chats" (conversationId ch ts)] := by
    have h := get_threads_from_db_ops store (conversationId ch ts)
    rw [hpair] at h
    exact h
  subst hops
  dsimp only
  repeat' split
  all_goals simp [opsOnly, save_threads_to_db, FsAccess.coll, FsAccess.doc]

theorem get_thread_ops (store : FsStore) (ts ch : String) :
    opsOnly ch ts (get_thread store ts ch).2 = true := by
  unfold get_thread
  dsimp only
  rcases hpair : get_threads_from_db store (conversationId ch ts) with ⟨threads, ops⟩
  have hops : ops = [FsAccess.read "slack-chats" (conversationId ch ts)] := by
    have h := get_threads_from_db_ops store (conversationId ch ts)
    rw [hpair] at h
    exact h
  subst hops
  simp [opsOnly, FsAccess.coll, FsAccess.doc]

theorem add_message_ops (store : FsStore) (ts msg uid mts ch now : String) :
    opsOnly ch ts (add_message_to_thread store ts msg uid mts ch now).2 = true := by
  unfold add_message_to_thread
  dsimp only
  rcases hpair : get_threads_from_db store (conversationId ch ts) with ⟨threads, ops1⟩
  have hops : ops1 = [FsAccess.read "slack-chats" (conversationId ch ts)] := by
    have h := get_threads_from_db_ops store (conversationId ch ts)
    rw [hpair] at h
    exact h
  subst hops
  dsimp only
  repeat' split
  all_goals simp [opsOnly, save_threads_to_db, FsAccess.coll, FsAccess.doc]

theorem get_thread_messages_ops (store : FsStore) (ts ch : String) (lim : Nat) :
    opsOnly ch ts (get_thread_messages store ts ch lim).2 = true := by
  unfold get_thread_messages
  dsimp only
  rcases hpair : get_threads_from_db store (conversationId ch ts) with ⟨threads, ops⟩
  have hops : ops = [FsAccess.read "slack-chats" (conversationId ch ts)] := by
    have h := get_threads_from_db_ops store (conversationId ch ts)
    rw [hpair] at h
    exact h
  subst hops
  dsimp only
  repeat' split
  all_goals simp [opsOnly, save_threads_to_db, FsAccess.coll, FsAccess.doc]
theorem claim5_storage_collection_and_key :
    (∀ (store : FsStore) (ch ts uid msg : String) (md : Option PyVal) (now : String),
      opsOnly ch ts (save_thread store ch ts uid msg md now).2 = true) ∧
    (∀ (store : FsStore) (ts : String) (upd : List (String × PyVal)) (ch now : String),
      opsOnly ch ts (update_thread store ts upd (some ch) now).2 = true) ∧
    (∀ (store : FsStore) (ts : String) (upd : List (String × PyVal)) (now : String),
      (update_thread store ts upd none now).2 = []) ∧
    (∀ (store : FsStore) (ts ch : String),
      opsOnly ch ts (get_thread store ts ch).2 = true) ∧
    (∀ (store : FsStore) (ts msg uid mts ch now : String),
      opsOnly ch ts (add_message_to_thread store ts msg uid mts ch now).2 = true) ∧
    (∀ (store : FsStore) (ts ch : String) (lim : Nat),
      opsOnly ch ts (get_thread_messages store ts ch lim).2 = true) ∧
    (∀ (store : FsStore) (ts ch now : String),
      opsOnly ch ts (close_thread store ts ch now).2 = true) :=
  ⟨save_thread_ops,
   update_thread_ops,
   fun _ _ _ _ => rfl,
   get_thread_ops,
   add_message_ops,
   get_thread_messages_ops,
   fun store ts ch now => update_thread_ops store ts [("is_active", vBool false)] ch now⟩

end RootAgency

namespace RootAgency

/-! ## Supporting lemmas for the LIMIT-stripping pass -/

theorem takeWhile_all {p : Char → Bool} :
    ∀ {l : List Char}, (∀ c ∈ l, p c = true) → l.takeWhile p = l
  | [], _ => rfl
  | c :: cs, h => by
    have hc : p c = true := h c (by simp)
    simp only [List.takeWhile, hc]
    rw [takeWhile_all (fun x hx => h x (by simp [hx]))]

theorem dropWhile_all {p : Char → Bool} :
    ∀ {l : List Char}, (∀ c ∈ l, p c = true) → l.dropWhile p = []
  | [], _ => rfl
  | c :: cs, h => by
    have hc : p c = true := h c (by simp)
    simp only [List.dropWhile, hc]
    exact dropWhile_all (fun x hx => h x (by simp [hx]))

theorem takeWhile_append_all {p : Char → Bool} :
    ∀ {w rest : List Char}, (∀ c ∈ w, p c = true) →
      (∀ c, rest.head? = some c → p c = false) →
      (w ++ rest).takeWhile p = w ∧ (w ++ rest).dropWhile p = rest
  | [], [], _, _ => ⟨rfl, rfl⟩
  | [], c :: cs, _, hh => by
    have := hh c rfl
    simp [List.takeWhile, List.dropWhile, this]
  | a :: w', rest, hw, hh => by
    have ha : p a = true := hw a (by simp)
    have ih := @takeWhile_append_all p w' rest
      (fun x hx => hw x (by simp [hx])) hh
    constructor
    · show List.takeWhile p (a :: (w' ++ rest)) = a :: w'
      simp only [List.takeWhile, ha]
      rw [ih.1]
    · show List.dropWhile p (a :: (w' ++ rest)) = rest
      simp only [List.dropWhile, ha]
      exact ih.2

theorem dropCI_of_ciEqList :
    ∀ {pat lm r : List Char}, ciEqList lm pat = true →
      dropCI pat (lm ++ r) = some r
  | [], [], r, _ => rfl
  | [], _ :: _, _, h => by simp [ciEqList] at h
  | _ :: _, [], _, h => by simp [ciEqList] at h
  | p :: ps, a :: as, r, h => by
    simp only [ciEqList, Bool.and_eq_true] at h
    simp only [List.cons_append, dropCI, h.1, if_true]
    exact dropCI_of_ciEqList h.2

theorem dropCI_sound :
    ∀ {pat l r : List Char}, dropCI pat l = some r →
      ∃ pre, l = pre ++ r ∧ ciEqList pre pat = true
  | [], l, r, h => by
    simp only [dropCI, Option.some.injEq] at h
    exact ⟨[], by simp [h], rfl⟩
  | _ :: _, [], _, h => by simp [dropCI] at h
  | p :: ps, c :: cs, r, h => by
    simp only [dropCI] at h
    split at h
    · obtain ⟨pre, hpre, hci⟩ := dropCI_sound h
      rename_i hce
      exact ⟨c :: pre, by simp [hpre], by simp [ciEqList, hce, hci]⟩
    · exact absurd h (by simp)

theorem mem_of_ciEqList :
    ∀ {lm pat : List Char}, ciEqList lm pat = true → ∀ c ∈ lm,
      ∃ b ∈ pat, ciEq c b = true
  | [], _, _, c, hc => by simp at hc
  | _ :: _, [], h, _, _ => by simp [ciEqList] at h
  | a :: as, b :: bs, h, c, hc => by
    simp only [ciEqList, Bool.and_eq_true] at h
    rcases List.mem_cons.mp hc with rfl | hc'
    · exact ⟨b, by simp, h.1⟩
    · obtain ⟨b', hb', hci⟩ := mem_of_ciEqList h.2 c hc'
      exact ⟨b', by simp [hb'], hci⟩

theorem not_isWS_of_ciEq_limit {c b : Char} (hb : b ∈ limitChars)
    (hci : ciEq c b = true) : isWS c = false := by
  by_contra hws
  rw [Bool.not_eq_false] at hws
  simp only [isWS, Bool.or_eq_true, beq_iff_eq] at hws
  simp only [limitChars, List.mem_cons, List.not_mem_nil, or_false] at hb
  rcases hb with rfl | rfl | rfl | rfl | rfl <;>
    rcases hws with ((((rfl | rfl) | rfl) | rfl) | rfl) | rfl <;>
    exact absurd hci (by decide)

theorem not_isWS_of_isDigit {c : Char} (h : c.isDigit = true) : isWS c = false := by
  by_contra hws
  rw [Bool.not_eq_false] at hws
  simp only [isWS, Bool.or_eq_true, beq_iff_eq] at hws
  rcases hws with ((((rfl | rfl) | rfl) | rfl) | rfl) | rfl <;>
    exact absurd h (by decide)

end RootAgency

namespace RootAgency

theorem ciEqList_ne_nil {lm : List Char} (h : ciEqList lm limitChars = true) :
    lm ≠ [] := by
  intro hnil
  subst hnil
  simp [ciEqList, limitChars] at h

theorem not_isWS_of_mem_lim {lm : List Char} (h : ciEqList lm limitChars = true)
    {c : Char} (hc : c ∈ lm) : isWS c = false := by
  obtain ⟨b, hb, hci⟩ := mem_of_ciEqList h c hc
  exact not_isWS_of_ciEq_limit hb hci

/-- The pattern matches exactly a whitespace run, a case-insensitive
`LIMIT`, a whitespace run and a digit run, consuming everything. -/
theorem matchLimitAt_boundary {w1 lm w2 d : List Char}
    (hw1 : w1 ≠ []) (hw1a : ∀ c ∈ w1, isWS c = true)
    (hlm : ciEqList lm limitChars = true)
    (hw2 : w2 ≠ []) (hw2a : ∀ c ∈ w2, isWS c = true)
    (hd : d ≠ []) (hda : ∀ c ∈ d, c.isDigit = true) :
    matchLimitAt (w1 ++ (lm ++ (w2 ++ d))) = some [] := by
  have hlmne : lm ≠ [] := ciEqList_ne_nil hlm
  have hhead1 : ∀ c, (lm ++ (w2 ++ d)).head? = some c → isWS c = false := by
    intro c hc
    cases lm with
    | nil => exact absurd rfl hlmne
    | cons a as =>
      simp only [List.cons_append, List.head?] at hc
      obtain rfl : a = c := by injection hc
      exact not_isWS_of_mem_lim hlm (by simp)
  have h1 := takeWhile_append_all (p := isWS) hw1a hhead1
  have hhead2 : ∀ c, d.head? = some c → isWS c = false := by
    intro c hc
    cases d with
    | nil => simp at hc
    | cons a as =>
      obtain rfl : a = c := by injection hc
      exact not_isWS_of_isDigit (hda a (by simp))
  have h2 := takeWhile_append_all (p := isWS) hw2a hhead2
  simp only [matchLimitAt]
  rw [h1.1, h1.2]
  have hw1e : w1.isEmpty = false := by
    cases w1 with
    | nil => exact absurd rfl hw1
    | cons _ _ => rfl
  rw [hw1e]
  simp only [Bool.false_eq_true, if_false]
  rw [dropCI_of_ciEqList hlm]
  dsimp only
  rw [h2.1, h2.2]
  have hw2e : w2.isEmpty = false := by
    cases w2 with
    | nil => exact absurd rfl hw2
    | cons _ _ => rfl
  rw [hw2e]
  simp only [Bool.false_eq_true, if_false]
  rw [takeWhile_all hda, dropWhile_all hda]
  have hde : d.isEmpty = false := by
    cases d with
    | nil => exact absurd rfl hd
    | cons _ _ => rfl
  rw [hde]
  simp

/-- Soundness: a successful match decomposes the text into the pattern's
pieces. -/
theorem matchLimitAt_some_decomp {s r : List Char}
    (h : matchLimitAt s = some r) :
    ∃ W Lm W2 D, s = W ++ (Lm ++ (W2 ++ (D ++ r))) ∧ W ≠ [] ∧
      (∀ c ∈ W, isWS c = true) ∧ ciEqList Lm limitChars = true ∧
      W2 ≠ [] ∧ D ≠ [] := by
  simp only [matchLimitAt] at h
  split at h
  · exact absurd h (by simp)
  · rename_i hw
    split at h
    · exact absurd h (by simp)
    · rename_i r2 hdrop
      split at h
      · exact absurd h (by simp)
      · rename_i hw2
        split at h
        · exact absurd h (by simp)
        · rename_i hd
          rw [Option.some.injEq] at h
          subst h
          obtain ⟨pre, hpre, hci⟩ := dropCI_sound hdrop
          refine ⟨s.takeWhile isWS, pre, r2.takeWhile isWS,
            (r2.dropWhile isWS).takeWhile Char.isDigit, ?_, ?_, ?_, hci, ?_, ?_⟩
          · conv_lhs => rw [← s.takeWhile_append_dropWhile (p := isWS)]
            rw [hpre]
            congr 1
            congr 1
            conv_lhs => rw [← r2.takeWhile_append_dropWhile (p := isWS)]
            congr 1
            conv_lhs =>
              rw [← (r2.dropWhile isWS).takeWhile_append_dropWhile (p := Char.isDigit)]
          · intro hnil
            rw [hnil] at hw
            exact hw rfl
          · exact fun c hc => List.mem_takeWhile_imp hc
          · intro hnil
            rw [hnil] at hw2
            exact hw2 rfl
          · intro hnil
            rw [hnil] at hd
            exact hd rfl

theorem hasCI_append_left {pat : List Char} :
    ∀ {x r : List Char}, hasCI pat r = true → hasCI pat (x ++ r) = true := by
  intro x
  induction x with
  | nil => intro r h; exact h
  | cons c cs ih =>
    intro r h
    show hasCI pat (c :: (cs ++ r)) = true
    unfold hasCI
    rw [ih h]
    simp

theorem hasCI_of_ciPrefix {pat r : List Char} (h : ciPrefix pat r = true) :
    hasCI pat r = true := by
  cases r with
  | nil => exact h
  | cons c cs =>
    unfold hasCI
    rw [h]
    simp

theorem ciPrefix_of_ciEqList :
    ∀ {pat lm t : List Char}, ciEqList lm pat = true →
      ciPrefix pat (lm ++ t) = true
  | [], _, _, _ => rfl
  | _ :: _, [], _, h => by simp [ciEqList] at h
  | p :: ps, a :: as, t, h => by
    simp only [ciEqList, Bool.and_eq_true] at h
    show ciPrefix (p :: ps) (a :: (as ++ t)) = true
    unfold ciPrefix
    rw [h.1, ciPrefix_of_ciEqList h.2]
    rfl

end RootAgency

namespace RootAgency

/-- No `\s+LIMIT\s+\d+` match can start inside a fragment that contains no
case-insensitive `LIMIT`, ends in a non-whitespace character, and is
followed by text starting with whitespace. -/
theorem matchLimitAt_none_inside {q rest : List Char}
    (hqne : q ≠ [])
    (hci : hasCI limitChars q = false)
    (hlast : ∀ c, q.getLast? = some c → isWS c = false)
    (hresthead : ∀ c, rest.head? = some c → isWS c = true) :
    matchLimitAt (q ++ rest) = none := by
  cases hm : matchLimitAt (q ++ rest) with
  | none => rfl
  | some r =>
    exfalso
    obtain ⟨W, Lm, W2, D, hdec, hWne, hWws, hLm, hW2ne, hDne⟩ :=
      matchLimitAt_some_decomp hm
    rcases List.append_eq_append_iff.mp hdec with ⟨a', hW, hrest⟩ | ⟨c', hq, heq2⟩
    · have hc : q.getLast? = some (q.getLast hqne) :=
        List.getLast?_eq_getLast_of_ne_nil hqne
      have hcq : q.getLast hqne ∈ q := List.getLast_mem hqne
      have hmemW : q.getLast hqne ∈ W := by
        rw [hW]
        exact List.mem_append_left a' hcq
      have hws := hWws _ hmemW
      rw [hlast _ hc] at hws
      exact Bool.noConfusion hws
    · rcases List.append_eq_append_iff.mp heq2 with ⟨a', hc', htail⟩ | ⟨c'', hLm', hrest'⟩
      · have hq' : hasCI limitChars q = true := by
          rw [hq, hc']
          exact hasCI_append_left (hasCI_of_ciPrefix (ciPrefix_of_ciEqList hLm))
        rw [hci] at hq'
        exact Bool.noConfusion hq'
      · cases c'' with
        | nil =>
          have hc'Lm : c' = Lm := by
            rw [hLm', List.append_nil]
          have hq' : hasCI limitChars q = true := by
            rw [hq, hc'Lm]
            have hp : ciPrefix limitChars Lm = true := by
              have := ciPrefix_of_ciEqList (t := []) hLm
              rwa [List.append_nil] at this
            exact hasCI_append_left (hasCI_of_ciPrefix hp)
          rw [hci] at hq'
          exact Bool.noConfusion hq'
        | cons x xs =>
          have hx : x ∈ Lm := by
            rw [hLm']
            exact List.mem_append_right c' (by simp)
          have hxws : isWS x = true := hresthead x (by rw [hrest']; rfl)
          rw [not_isWS_of_mem_lim hLm hx] at hxws
          exact Bool.noConfusion hxws

/-- A scan across a fragment in which no position starts a match keeps the
fragment verbatim. -/
theorem subLimit_append_of_no_match :
    ∀ {p rest : List Char},
      (∀ q₁ q₂, p = q₁ ++ q₂ → q₂ ≠ [] → matchLimitAt (q₂ ++ rest) = none) →
      subLimit (p ++ rest) = p ++ subLimit rest := by
  intro p
  induction p with
  | nil =>
    intro rest _
    simp
  | cons c p' ih =>
    intro rest hno
    show subLimit (c :: (p' ++ rest)) = c :: (p' ++ subLimit rest)
    rw [subLimit_cons]
    have h0 : matchLimitAt ((c :: p') ++ rest) = none :=
      hno [] (c :: p') rfl (by simp)
    rw [show matchLimitAt (c :: (p' ++ rest)) = none from h0]
    dsimp only
    rw [ih (fun q₁ q₂ hpq hne => hno (c :: q₁) q₂ (by rw [hpq]; rfl) hne)]

/-- A text with no case-insensitive `LIMIT` has no pattern match. -/
theorem hasLimitMatch_of_no_ciLIMIT :
    ∀ {p : List Char}, hasCI limitChars p = false → hasLimitMatch p = false := by
  intro p
  induction p with
  | nil => intro _; rfl
  | cons c cs ih =>
    intro h
    have hparts : ciPrefix limitChars (c :: cs) = false ∧
        hasCI limitChars cs = false := by
      have h' := h
      unfold hasCI at h'
      exact Bool.or_eq_false_iff.mp h'
    unfold hasLimitMatch
    rw [ih hparts.2]
    cases hm : matchLimitAt (c :: cs) with
    | none => rfl
    | some r =>
      exfalso
      obtain ⟨W, Lm, W2, D, hdec, -, -, hLm, -, -⟩ := matchLimitAt_some_decomp hm
      have hq' : hasCI limitChars (c :: cs) = true := by
        rw [hdec]
        exact hasCI_append_left (hasCI_of_ciPrefix (ciPrefix_of_ciEqList hLm))
      rw [h] at hq'
      exact Bool.noConfusion hq'

end RootAgency

namespace RootAgency

open PyVal

/-- `src/SQLQueryTOOL.py` `run`, lines 333–378: the processing of the
extracted `(sql_query, raw_results)` pair.  `convert` is the tool's own
`_convert_to_dataframe`, a total function because it catches every
exception internally; the CSV/JSON writes are modelled as succeeding.
`typeErr` is `str(e)` for the `TypeError` that `re.sub` raises on a
non-string `sql_query` (caught by the `Error processing response`
handler, whose `raw_response` is `str(agent_response)`, the `respStr`
argument).  Returns the result dict paired with the `base_query` the run
computed (`none` when no `re.sub` pass happened). -/
def topRunProcess (convert : PyVal → DataFrame)
    (savePath timestamp query typeErr respStr : String)
    (output : PyVal) (ex : TopExtract) : PyVal × Option String :=
  if !pyTruthy ex.sql_query || !pyTruthy ex.raw_results then
    (vDict [ (vStr "type", vStr "error"),
             (vStr "error", vStr "Could not parse agent response"),
             (vStr "raw_response", output),
             (vStr "query", vStr query) ], none)
  else
    match ex.sql_query with
    | vStr sq =>
      if dfEmpty (convert ex.raw_results) then
        (vDict [ (vStr "type", vStr "error"),
                 (vStr "error", vStr "No data found in response"),
                 (vStr "query", vStr query) ], some (cleanSqlQuery sq))
      else
        (vDict [ (vStr "type", vStr "tabular"),
                 (vStr "data", dfRecordsVal (convert ex.raw_results)),
                 (vStr "row_count", vInt (dfLen (convert ex.raw_results) : Nat)),
                 (vStr "columns", dfColsVal (convert ex.raw_results)),
                 (vStr "csv_path",
                   vStr (savePath ++ "/query_results_" ++ timestamp ++ ".csv")),
                 (vStr "json_path",
                   vStr (savePath ++ "/query_results_" ++ timestamp ++ ".json")),
                 (vStr "query", vStr query),
                 (vStr "sql_query", vStr (cleanSqlQuery sq)) ],
         some (cleanSqlQuery sq))
    | _ =>
      (vDict [ (vStr "type", vStr "error"),
               (vStr "error", vStr ("Error processing response: " ++ typeErr)),
               (vStr "raw_response", vStr respStr),
               (vStr "query", vStr query) ], none)

/-- C9 (amended): the reporting_manager `SQLQueryTool.run` and the
top-level `src/SQLQueryTOOL.py` `run` pass the extracted SQL query through
one left-to-right non-overlapping removal pass of `\s+LIMIT\s+\d+`
(IGNORECASE) plus `strip()` and store the cleaned query in the returned
dict's `sql_query` (the reporting_manager variant also executes it; the
top-level variant executes nothing, building its DataFrame from the
agent-returned rows).  `SQLQueryToolV3` cleans (`\bLIMIT\s+\d+\s*` and
`\bOFFSET\s+\d+\s*` removal) only the query it re-executes on the
traditional branch, and stores/returns the **raw** `sql_query`, LIMIT
clause included.  For the typical LLM output — a body with no
case-insensitive `LIMIT`, ending in a non-whitespace character, followed
by one trailing `LIMIT n` clause — the pass removes the clause entirely
and the result contains no LIMIT match.  (A single pass does **not**
guarantee the absence of a match in general: removal can juxtapose new
matches, see the counterexample.) -/
theorem claim9_limit_strip :
    (∀ (o : SqlOracles) (q : String) (out : SqlRunOut), runBody o q = .ok out →
      ∃ qs, out.extract.sql_query = vStr qs ∧
        out.cleanedSql = cleanSqlQuery qs ∧
        dictGet out.result "sql_query" = some (vStr out.cleanedSql)) ∧
    (∀ (convert : PyVal → DataFrame)
        (savePath timestamp query typeErr respStr : String)
        (output : PyVal) (ex : TopExtract) (res : PyVal) (bq : String),
      topRunProcess convert savePath timestamp query typeErr respStr output ex =
        (res, some bq) →
      ∃ sq, ex.sql_query = vStr sq ∧ bq = cleanSqlQuery sq ∧
        (dfEmpty (convert ex.raw_results) = false →
          dictGet res "sql_query" = some (vStr bq))) ∧
    (∀ (qr : PyVal) (dbExec : String → Except String DFrame) (topK : Nat)
        (question ts sqlQuery : String) (rs : List PyVal) (df : DFrame),
      dictGet qr "sql_query" = some (vStr sqlQuery) → sqlQuery ≠ "" →
      dictGet qr "sql_result" = some (vList rs) → pyTruthy qr = true →
      (rs.length = 0 ∨ topK ≤ rs.length) →
      dbExec (cleanQueryV3 sqlQuery) = .ok df →
      (runV3 qr dbExec topK question ts).executedQuery =
        some (cleanQueryV3 sqlQuery) ∧
      dictGet (runV3 qr dbExec topK question ts).response "sql_query" =
        some (vStr sqlQuery)) ∧
    (∀ p w1 lm w2 d : List Char,
      hasCI limitChars p = false →
      (∀ c, p.getLast? = some c → isWS c = false) →
      w1 ≠ [] → (∀ c ∈ w1, isWS c = true) →
      ciEqList lm limitChars = true →
      w2 ≠ [] → (∀ c ∈ w2, isWS c = true) →
      d ≠ [] → (∀ c ∈ d, c.isDigit = true) →
      subLimit (p ++ (w1 ++ (lm ++ (w2 ++ d)))) = p ∧
      hasLimitMatch p = false) := by
  refine ⟨?_, ?_, ?_, ?_⟩
  · intro o q out h
    obtain ⟨hres, -, qs, hsql, hclean⟩ := runBody_ok_inv h
    refine ⟨qs, hsql, hclean, ?_⟩
    rw [hres]
    exact (runResultDict_fields q out.cleanedSql out.df out.savedPaths).2.2.2.2.2
  · intro convert savePath timestamp query typeErr respStr output ex res bq h
    unfold topRunProcess at h
    split at h
    · injection h with h1 h2
      exact Option.noConfusion h2
    · split at h
      next sq heq =>
        split at h
        next hdf =>
          injection h with h1 h2
          injection h2 with h2
          refine ⟨sq, heq, h2.symm, fun hne => ?_⟩
          rw [hne] at hdf
          exact Bool.noConfusion hdf
        next hdf =>
          injection h with h1 h2
          injection h2 with h2
          refine ⟨sq, heq, h2.symm, fun _ => ?_⟩
          rw [← h1, ← h2]
          rfl
      next hne =>
        injection h with h1 h2
        exact Option.noConfusion h2
  · intro qr dbExec topK question ts sqlQuery rs df hq hqt hr hqr hcase hdf
    rw [runV3_traditional qr dbExec topK question ts sqlQuery rs df
      hq hqt hr hqr hcase hdf]
    exact ⟨rfl, rfl⟩
  · intro p w1 lm w2 d hci hlast hw1 hw1a hlm hw2 hw2a hd hda
    have hresthead : ∀ c, (w1 ++ (lm ++ (w2 ++ d))).head? = some c →
        isWS c = true := by
      intro c hc
      cases w1 with
      | nil => exact absurd rfl hw1
      | cons a as =>
        obtain rfl : a = c := by injection hc
        exact hw1a a (by simp)
    have hmain : subLimit (p ++ (w1 ++ (lm ++ (w2 ++ d)))) =
        p ++ subLimit (w1 ++ (lm ++ (w2 ++ d))) := by
      apply subLimit_append_of_no_match
      intro q₁ q₂ hpq hne
      have hciq : hasCI limitChars q₂ = false := by
        cases h2 : hasCI limitChars q₂ with
        | false => rfl
        | true =>
          have : hasCI limitChars p = true := by
            rw [hpq]
            exact hasCI_append_left h2
          rw [hci] at this
          exact Bool.noConfusion this
      have hlastq : ∀ c, q₂.getLast? = some c → isWS c = false := by
        intro c hc
        apply hlast c
        cases q₂ with
        | nil => exact absurd rfl hne
        | cons x xs =>
          rw [hpq, List.getLast?_append_cons]
          exact hc
      exact matchLimitAt_none_inside hne hciq hlastq hresthead
    have hrest0 : subLimit (w1 ++ (lm ++ (w2 ++ d))) = [] := by
      cases w1 with
      | nil => exact absurd rfl hw1
      | cons a as =>
        show subLimit (a :: (as ++ (lm ++ (w2 ++ d)))) = []
        rw [subLimit_cons]
        have hb := matchLimitAt_boundary hw1 hw1a hlm hw2 hw2a hd hda
        rw [show matchLimitAt (a :: (as ++ (lm ++ (w2 ++ d)))) = some [] from hb]
        rfl
    refine ⟨?_, hasLimitMatch_of_no_ciLIMIT hci⟩
    rw [hmain, hrest0, List.append_nil]

/-- Oracles whose agent output carries the adversarial SQL
`SELECT a LIMIT LIMIT 2 3`. -/
def cexO9 : SqlOracles where
  agentInitialized := true
  agentResponse := .ok (vDict [(vStr "output", vStr "J9")])
  loads := fun s =>
    if s = "J9" then
      some (vDict [ (vStr "sql_query", vStr "SELECT a LIMIT LIMIT 2 3"),
                    (vStr "sql_result", vList [vTuple [vInt 1]]),
                    (vStr "columns", vList [vStr "a"]) ])
    else none
  litEval := fun _ => none
  searchSql := fun _ => none
  searchResults := fun _ => none
  searchColumns := fun _ => none
  dbRun := fun _ => .ok (vList [vTuple [vInt 1]])
  savePath := "p"
  timestamp := "t"

/-- C9 counterexample: the single `re.sub` pass is not idempotent — for the
extracted query `SELECT a LIMIT LIMIT 2 3` the removal of `" LIMIT 2"`
juxtaposes `" LIMIT 3"`, so the query actually executed (and stored in
`sql_query`) still contains a `whitespace+LIMIT+digits` occurrence. -/
theorem claim9_counterexample :
    (runBody cexO9 "q").map (fun out => out.cleanedSql) =
      .ok "SELECT a LIMIT 3" ∧
    (runBody cexO9 "q").map (fun out => hasLimitMatch out.cleanedSql.data) =
      .ok true := by
  exact ⟨rfl, rfl⟩

/-- Conversion oracle for the C9 top-variant witness: a one-column,
one-row DataFrame. -/
def witConv9 : PyVal → DataFrame := fun _ => ⟨[vStr "a"], [[(vStr "a", vInt 1)]]⟩

/-- Extraction for the C9 top-variant witness. -/
def witEx9 : TopExtract :=
  ⟨vStr "SELECT name FROM t LIMIT 5", vList [vTuple [vInt 1]], false, false, false⟩

/-- The result dict the C9 top-variant witness run produces. -/
def witRes9 : PyVal :=
  (topRunProcess witConv9 "p" "t" "q" "e" "r" (vStr "out") witEx9).1

/-- Query-generator dict for the C9 V3 witness: an empty initial result
set forces the traditional branch. -/
def witQr9 : PyVal :=
  vDict [ (vStr "sql_query", vStr "SELECT a FROM t LIMIT 7"),
          (vStr "sql_result", vList []) ]

/-- Direct-execution oracle for the C9 V3 witness. -/
def witDb9 : String → Except String DFrame := fun _ => .ok ⟨[vStr "a"], [vInt 1]⟩

/-- Witness for C9: a concrete reporting_manager run (tie of the stored
query to `cleanSqlQuery`), a concrete top-variant run (stores the cleaned
query), a concrete V3 traditional run (executes the cleaned query but
stores the raw one), and the concrete trailing clause
`"SELECT name FROM t" ++ " " ++ "LIMIT" ++ " " ++ "10"`. -/
theorem claim9_witness :
    (∃ qs, witOut8.extract.sql_query = vStr qs ∧
      witOut8.cleanedSql = cleanSqlQuery qs ∧
      dictGet witOut8.result "sql_query" = some (vStr witOut8.cleanedSql)) ∧
    (∃ sq, witEx9.sql_query = vStr sq ∧
      "SELECT name FROM t" = cleanSqlQuery sq ∧
      (dfEmpty (witConv9 witEx9.raw_results) = false →
        dictGet witRes9 "sql_query" = some (vStr "SELECT name FROM t"))) ∧
    ((runV3 witQr9 witDb9 10 "q9" "t9").executedQuery =
        some (cleanQueryV3 "SELECT a FROM t LIMIT 7") ∧
      dictGet (runV3 witQr9 witDb9 10 "q9" "t9").response "sql_query" =
        some (vStr "SELECT a FROM t LIMIT 7")) ∧
    subLimit ("SELECT name FROM t".data ++
      (" ".data ++ ("LIMIT".data ++ (" ".data ++ "10".data)))) =
      "SELECT name FROM t".data ∧
    hasLimitMatch "SELECT name FROM t".data = false := by
  refine ⟨claim9_limit_strip.1 witOracles8 "low stock items" witOut8 (by rfl),
    ?_, ?_, ?_⟩
  · exact claim9_limit_strip.2.1 witConv9 "p" "t" "q" "e" "r" (vStr "out")
      witEx9 witRes9 "SELECT name FROM t" (by rfl)
  · exact claim9_limit_strip.2.2.1 witQr9 witDb9 10 "q9" "t9"
      "SELECT a FROM t LIMIT 7" ([] : List PyVal) ⟨[vStr "a"], [vInt 1]⟩
      rfl (by decide) rfl rfl (Or.inl rfl) rfl
  · exact claim9_limit_strip.2.2.2 "SELECT name FROM t".data " ".data
      "LIMIT".data " ".data "10".data (by decide) (by decide) (by decide)
      (by decide) (by decide) (by decide) (by decide) (by decide) (by decide)

end RootAgency

